import Mathlib

/-!
# CoinVault: the orchestration layer of `mainwindow.cpp`

A shallow embedding of the state that `MainWindow` tracks (chain heights,
connectivity, session state) and of the handlers that change it, followed by
theorems about them.

Conventions of the embedding.

* C++ `int` values are `Int`; arithmetic on them goes through `wrapInt32`
  (two's complement wrap-around, what signed overflow does on the usual
  targets although C++ leaves it undefined).  `uint32_t` values are `Nat`
  below `2^32`; arithmetic on them goes through `wrapUInt32`.
* Signals connected to a lambda without a context object run the lambda
  synchronously inside `emit`; an `emit` is therefore a call of the handler.
* Widgets of the presentation layer (menus, actions, views) are not part of
  the state.  What the window shows or sends is recorded in list-valued
  fields of the state, oldest entry first.
* Collaborators whose code is not in `mainwindow.cpp` (the wallet store
  behind `accountModel`, the network client `networkSync`, the dialogs)
  appear as data: the values their queries return are fields or arguments,
  and the outcome of a call that may throw is an argument of type
  `Except String _`.
-/

namespace CoinVault

/-! ## Machine integers -/

/-- Two's complement wrap of an integer into the range of a 32-bit `int`. -/
def wrapInt32 (x : Int) : Int := (x + 2147483648) % 4294967296 - 2147483648

/-- Wrap of an integer into the range of a `uint32_t`. -/
def wrapUInt32 (x : Int) : Nat := (x % 4294967296).toNat

/-! ## Data model -/

/-- The enumeration `network_state_t` of `mainwindow.h`, as used by
`MainWindow::updateNetworkState`. -/
inductive network_state_t
  | NETWORK_STATE_UNKNOWN
  | NETWORK_STATE_NOT_CONNECTED
  | NETWORK_STATE_SYNCHING
  | NETWORK_STATE_SYNCHED
  deriving DecidableEq, Repr

open network_state_t

/-- What `networkStateLabel` is made to show by `updateNetworkState`. -/
inductive StateIndicator
  | notConnectedIcon
  | synchingMovie
  | synchedIcon
  deriving DecidableEq, Repr

/-- Byte strings (`bytes_t`). -/
abbrev bytes_t := List Nat

/-- A chain header as delivered with the best-chain events: its height and
its hash (`getHashLittleEndian()`). -/
structure chain_header_t where
  height : Int
  hash : bytes_t
  deriving DecidableEq, Repr

/-- A wire-level transaction (`Coin::Transaction`): its bytes and its hash
(`getHashLittleEndian()`). -/
structure Transaction where
  raw : bytes_t
  hash : bytes_t
  deriving DecidableEq, Repr

/-- Modelled from the spec: the status enumeration of `CoinQ::Vault::Tx` is
declared outside `mainwindow.cpp`; section 3 lists its values as UNSIGNED,
SIGNED, SENT, RECEIVED.  The source names `UNSIGNED` and `RECEIVED`. -/
inductive TxStatus
  | UNSIGNED
  | SIGNED
  | SENT
  | RECEIVED
  deriving DecidableEq, Repr

/-- A transaction of the wallet store (`CoinQ::Vault::Tx`): its wire form
(`toCoinClasses()`) and its status (`status()`). -/
structure VaultTx where
  coin : Transaction
  status : TxStatus
  deriving DecidableEq, Repr

/-- A request `resync(locatorHashes, startTime)` made to the network client. -/
structure ResyncRequest where
  locatorHashes : List bytes_t
  startTime : Nat
  deriving DecidableEq, Repr

/-- The part of `accountModel` (and of the vault behind it) that the window
reads and writes. -/
structure AccountModel where
  /-- The value of `isOpen()`. -/
  isOpen : Bool
  /-- The value of `getNumAccounts()`. -/
  numAccounts : Int
  /-- The value of `getFirstAccountTimeCreated()`, a `uint32_t`. -/
  firstAccountTimeCreated : Nat
  /-- The value of `getLocatorHashes()`. -/
  locatorHashes : List bytes_t
  /-- The transactions held by the vault. -/
  txs : List VaultTx
  /-- The scripts watched for the accounts of the vault. -/
  watchedScripts : List bytes_t
  deriving DecidableEq, Repr

/-- Modelled from the spec: a bloom filter, the value of
`AccountModel::getBloomFilter`, which is outside `mainwindow.cpp`.  Sections
3 and 4.5: the filter is a pure function of the watched-script set, the
false-positive rate, the tweak and the flags; it is represented by these
four inputs. -/
structure BloomFilter where
  watchedScripts : List bytes_t
  falsePositiveRate : ℚ
  nTweak : Nat
  nFlags : Nat
  deriving DecidableEq, Repr

/-- Modelled from the spec: `AccountModel::getBloomFilter(falsePositiveRate,
nTweak, nFlags)`, computed from the store as it is at the call. -/
def AccountModel.getBloomFilter (m : AccountModel) (falsePositiveRate : ℚ)
    (nTweak nFlags : Nat) : BloomFilter :=
  { watchedScripts := m.watchedScripts, falsePositiveRate := falsePositiveRate,
    nTweak := nTweak, nFlags := nFlags }

/-- The part of the network client `networkSync` that the window reads, and
the record of the calls the window makes on it. -/
structure NetworkSync where
  /-- The value of `getBestHeight()`. -/
  bestHeight : Int
  /-- The arguments of the calls of `sendTx`. -/
  sendTxCalls : List Transaction
  /-- The arguments of the calls of `resync(locatorHashes, startTime)`. -/
  resyncCalls : List ResyncRequest
  /-- The arguments of the calls of `resync(height)`. -/
  resyncHeightCalls : List Int
  /-- The arguments of the calls of `setBloomFilter`. -/
  bloomFilters : List BloomFilter
  /-- The number of calls of `start(host, port)`. -/
  startCalls : Nat
  /-- The number of calls of `stop()`. -/
  stopCalls : Nat
  /-- The number of calls of `stopResync()`. -/
  stopResyncCalls : Nat
  deriving DecidableEq, Repr

/-- The state of `MainWindow`. -/
structure MainWindow where
  syncHeight : Int
  bestHeight : Int
  connected : Bool
  networkState : network_state_t
  resyncHeight : Int
  host : String
  port : Int
  accountModel : AccountModel
  networkSync : NetworkSync
  /-- The text of `syncLabel`. -/
  syncLabel : String
  /-- Every change made to `networkStateLabel` by `updateNetworkState`. -/
  stateIndicator : List StateIndicator
  /-- The argument of every call of `updateStatusMessage`. -/
  statusMessages : List String
  /-- The text of every error box shown by `showError`. -/
  errors : List String
  /-- The argument of every emission of the signal `updateSyncHeight`. -/
  syncHeightSignals : List Int
  /-- The argument of every emission of the signal `updateBestHeight`. -/
  bestHeightSignals : List Int
  deriving DecidableEq, Repr

/-! ## Status and error reporting -/

/-- `MainWindow::updateStatusMessage`: the body is commented out in the
source; the call is recorded. -/
def updateStatusMessage (w : MainWindow) (message : String) : MainWindow :=
  { w with statusMessages := w.statusMessages ++ [message] }

/-- The statement `emit status(message)`: the one connected handler calls
`updateStatusMessage(message)`. -/
def emitStatus (w : MainWindow) (message : String) : MainWindow :=
  updateStatusMessage w message

/-- `MainWindow::showError`. -/
def showError (w : MainWindow) (errorMsg : String) : MainWindow :=
  let w1 := updateStatusMessage w "Operation failed"
  { w1 with errors := w1.errors ++ [errorMsg] }

/-! ## Session state -/

/-- The first half of `MainWindow::updateNetworkState`: the state that
replaces the placeholder `NETWORK_STATE_UNKNOWN`. -/
def resolveNetworkState (w : MainWindow) (newState : network_state_t) : network_state_t :=
  if newState = NETWORK_STATE_UNKNOWN then
    if !w.connected then NETWORK_STATE_NOT_CONNECTED
    else if decide (w.accountModel.numAccounts > 0) && decide (w.syncHeight ≠ w.bestHeight) then
      NETWORK_STATE_SYNCHING
    else NETWORK_STATE_SYNCHED
  else newState

/-- The `switch` of `MainWindow::updateNetworkState`: what the label shows
for a state; nothing for the `default` branch. -/
def indicatorOf : network_state_t → List StateIndicator
  | NETWORK_STATE_NOT_CONNECTED => [StateIndicator.notConnectedIcon]
  | NETWORK_STATE_SYNCHING => [StateIndicator.synchingMovie]
  | NETWORK_STATE_SYNCHED => [StateIndicator.synchedIcon]
  | NETWORK_STATE_UNKNOWN => []

/-- `MainWindow::updateNetworkState(network_state_t newState)`. -/
def updateNetworkState (w : MainWindow) (newState : network_state_t) : MainWindow :=
  let newState := resolveNetworkState w newState
  if newState ≠ w.networkState then
    { w with networkState := newState,
             stateIndicator := w.stateIndicator ++ indicatorOf newState }
  else w

/-- Modelled from the spec: the call `updateNetworkState()` without an
argument.  The default argument is declared in `mainwindow.h`, which is not
among the sources; it is the placeholder `NETWORK_STATE_UNKNOWN`, the one
value for which the body recomputes the state (section 4.1, `recompute`). -/
def recomputeNetworkState (w : MainWindow) : MainWindow :=
  updateNetworkState w NETWORK_STATE_UNKNOWN

/-- `MainWindow::updateSyncLabel`. -/
def updateSyncLabel (w : MainWindow) : MainWindow :=
  { w with syncLabel := toString w.syncHeight ++ "/" ++ toString w.bestHeight }

/-! ## Chain tracker -/

/-- The handler connected to the signal `updateSyncHeight`. -/
def onUpdateSyncHeight (w : MainWindow) (height : Int) : MainWindow :=
  recomputeNetworkState (updateSyncLabel { w with syncHeight := height })

/-- The statement `emit updateSyncHeight(height)`. -/
def emitUpdateSyncHeight (w : MainWindow) (height : Int) : MainWindow :=
  onUpdateSyncHeight { w with syncHeightSignals := w.syncHeightSignals ++ [height] } height

/-- The handler connected to the signal `updateBestHeight`. -/
def onUpdateBestHeight (w : MainWindow) (height : Int) : MainWindow :=
  recomputeNetworkState (updateSyncLabel { w with bestHeight := height })

/-- The statement `emit updateBestHeight(height)`. -/
def emitUpdateBestHeight (w : MainWindow) (height : Int) : MainWindow :=
  onUpdateBestHeight { w with bestHeightSignals := w.bestHeightSignals ++ [height] } height

/-- The handler connected to `AccountModel::updateSyncHeight` in the
constructor: it re-emits the height as the window's own signal. -/
def accountModelUpdateSyncHeight (w : MainWindow) (height : Int) : MainWindow :=
  emitUpdateSyncHeight w height

/-- Hexadecimal digit of a value below 16. -/
def hexDigit (n : Nat) : Char :=
  if n < 10 then Char.ofNat (48 + n) else Char.ofNat (87 + n)

/-- The text of `uchar_vector(hash).getHex()`: two lower-case digits a byte. -/
def getHex (hash : bytes_t) : String :=
  String.mk (hash.flatMap fun b => [hexDigit (b / 16 % 16), hexDigit (b % 16)])

/-- `MainWindow::newBlock`. -/
def newBlock (w : MainWindow) (hash : bytes_t) (height : Int) : MainWindow :=
  let w1 := if height > w.syncHeight then emitUpdateSyncHeight w height else w
  let message := "Inserted block " ++ getHex hash ++ " height: " ++ toString height
  emitStatus w1 message

/-- `MainWindow::addBestChain`. -/
def addBestChain (w : MainWindow) (header : chain_header_t) : MainWindow :=
  emitUpdateBestHeight w header.height

/-- `MainWindow::removeBestChain`. -/
def removeBestChain (w : MainWindow) (_header : chain_header_t) : MainWindow :=
  let diff := wrapInt32 (w.bestHeight - w.networkSync.bestHeight)
  if diff ≥ 0 then
    let message := "Reorganization of " ++ toString (wrapInt32 (diff + 1)) ++ " blocks"
    let w1 := emitStatus w message
    emitUpdateBestHeight w1 w1.networkSync.bestHeight
  else w

/-! ## Resync coordinator -/

/-- What a function that may throw leaves behind: the window as it is when
the function is left, and the text of the exception that leaves it, if any. -/
structure Outcome where
  window : MainWindow
  thrown : Option String
  deriving DecidableEq, Repr

/-- `MainWindow::resync`.  `netResult` is what the call
`networkSync.resync(locatorHashes, startTime - 2*60*60)` does: return, or
throw.  The second argument is recorded with the value the expression has in
the source, where `startTime` is a `uint32_t`. -/
def resync (w : MainWindow) (netResult : Except String Unit) : Outcome :=
  let w1 := updateStatusMessage w "Resynchronizing vault"
  let startTime : Nat := w1.accountModel.firstAccountTimeCreated
  let locatorHashes := w1.accountModel.locatorHashes
  let request : ResyncRequest := ⟨locatorHashes, wrapUInt32 ((startTime : Int) - 2 * 60 * 60)⟩
  let w2 := { w1 with networkSync :=
    { w1.networkSync with resyncCalls := w1.networkSync.resyncCalls ++ [request] } }
  match netResult with
  | .ok _ => ⟨w2, none⟩
  | .error e => ⟨w2, some e⟩

/-! ## Transaction submission -/

/-- The enumeration `CreateTxDialog::status_t`: the source names
`SIGN_AND_SEND` and `SIGN_AND_SAVE`; `SAVE_ONLY` stands for every other
value. -/
inductive CreateTxStatus
  | SAVE_ONLY
  | SIGN_AND_SAVE
  | SIGN_AND_SEND
  deriving DecidableEq, Repr

/-- What the collaborators answer during one pass through the body of the
loop of `MainWindow::createTx`, after the dialog has been accepted. -/
structure CreateTxAttempt where
  /-- The value of `dlg.getStatus()`. -/
  status : CreateTxStatus
  /-- The outcome of reading the outputs and the fee from the dialog and of
  `accountModel->createTx(account, outputs, fee)`. -/
  createTx : Except String Transaction
  /-- The outcome of `accountModel->insertTx(coin_tx, UNSIGNED, sign)`, for
  either value of `sign`: the transaction as stored, or an exception. -/
  insertTx : Bool → Except String VaultTx
  /-- The outcome of `networkSync.sendTx(coin_tx)`. -/
  sendTx : Except String Unit
  /-- The outcome of `getVault()->addTx(tx, true)`. -/
  addTx : Except String Unit

/-- One run of a modal dialog: rejected, or accepted with the answers that
follow it. -/
inductive DialogResult (α : Type)
  | rejected
  | accepted (answers : α)

/-- Modelled from the spec: the effect of a successful
`AccountModel::insertTx(coin_tx, UNSIGNED, sign)` on the wallet store; the
function is in `accountmodel.cpp`, not among the sources.  Section 4.4: the
transaction is inserted into the wallet store. -/
def AccountModel.stored (m : AccountModel) (tx : VaultTx) : AccountModel :=
  { m with txs := m.txs ++ [tx] }

/-- Modelled from the spec: the effect of a successful `Vault::addTx(tx, true)`
on the wallet store; the function is outside `mainwindow.cpp`.  The stored
transaction with the same wire form is replaced by `tx`; without one, `tx`
is added. -/
def AccountModel.addTx (m : AccountModel) (tx : VaultTx) : AccountModel :=
  if m.txs.any (fun t => t.coin = tx.coin) then
    { m with txs := m.txs.map fun t => if t.coin = tx.coin then tx else t }
  else { m with txs := m.txs ++ [tx] }

/-- The body of the `try` block of `MainWindow::createTx`.  The result is the
window, the value of `saved`, and the exception thrown (`none` when the
`return` statement is reached). -/
def createTxAttempt (w : MainWindow) (a : CreateTxAttempt) : MainWindow × Bool × Option String :=
  let status := a.status
  let sign := decide (status = CreateTxStatus.SIGN_AND_SEND) || decide (status = CreateTxStatus.SIGN_AND_SAVE)
  match a.createTx with
  | .error e => (w, false, some e)
  | .ok _coin_tx =>
    match a.insertTx sign with
    | .error e => (w, false, some e)
    | .ok tx =>
      let w1 := { w with accountModel := w.accountModel.stored tx }
      if status = CreateTxStatus.SIGN_AND_SEND then
        if tx.status = TxStatus.UNSIGNED then
          (w1, true, some "Could not send - transaction still missing signatures.")
        else if !w1.connected then
          (w1, true, some "Must be connected to network to send.")
        else
          let coin_tx := tx.coin
          let w2 := { w1 with networkSync :=
            { w1.networkSync with sendTxCalls := w1.networkSync.sendTxCalls ++ [coin_tx] } }
          match a.sendTx with
          | .error e => (w2, true, some e)
          | .ok _ =>
            let tx := { tx with status := TxStatus.RECEIVED }
            match a.addTx with
            | .error e => (w2, true, some e)
            | .ok _ => ({ w2 with accountModel := w2.accountModel.addTx tx }, true, none)
      else (w1, true, none)

/-- The loop `while (!saved && dlg.exec())` of `MainWindow::createTx`, run
against a script of dialog results; a script that ends stands for a
rejected dialog. -/
def createTxLoop (w : MainWindow) : List (DialogResult CreateTxAttempt) → MainWindow
  | [] => w
  | .rejected :: _ => w
  | .accepted a :: rest =>
    match createTxAttempt w a with
    | (w1, _, none) => w1
    | (w1, saved, some e) =>
      let w2 := showError w1 e
      if saved then w2 else createTxLoop w2 rest

/-- `MainWindow::createTx`.  `selected` is the name of the first selected
account, if any. -/
def createTx (w : MainWindow) (selected : Option String)
    (dialog : List (DialogResult CreateTxAttempt)) : MainWindow :=
  match selected with
  | none => showError w "No account selected."
  | some _accountName => createTxLoop w dialog

/-- What the collaborators answer in `MainWindow::sendRawTx` after the
dialog has been accepted. -/
structure SendRawTxAttempt where
  /-- The outcome of `dlg.getRawTx()` and of parsing it as a transaction. -/
  tx : Except String Transaction
  /-- The outcome of `networkSync.sendTx(tx)`. -/
  sendTx : Except String Unit

/-- `MainWindow::sendRawTx`. -/
def sendRawTx (w : MainWindow) (dialog : DialogResult SendRawTxAttempt) : MainWindow :=
  if !w.connected then showError w "Must be connected to send raw transaction"
  else
    match dialog with
    | .rejected => w
    | .accepted a =>
      match a.tx with
      | .error e => showError w e
      | .ok tx =>
        let w1 := { w with networkSync :=
          { w.networkSync with sendTxCalls := w.networkSync.sendTxCalls ++ [tx] } }
        match a.sendTx with
        | .error e => showError w1 e
        | .ok _ => updateStatusMessage w1 ("Sent tx " ++ getHex tx.hash ++ " to peer")

/-! ## The rule of the specification -/

/-- The contract `recompute` of section 4.1, in the words of the
specification: not connected gives NOT_CONNECTED; else a positive account
count and differing heights give SYNCHING; else SYNCHED. -/
def recompute (connected : Bool) (accountCount syncHeight bestHeight : Int) : network_state_t :=
  if connected = false then NETWORK_STATE_NOT_CONNECTED
  else if accountCount > 0 ∧ syncHeight ≠ bestHeight then NETWORK_STATE_SYNCHING
  else NETWORK_STATE_SYNCHED

/-! ## Sample states -/

/-- The window as the constructor leaves it when no settings are stored:
heights 0, not connected, state NOT_CONNECTED, the default host and port, the
label text `0/0` and the status message `Ready` of `createStatusBar`, an
empty closed wallet and a network client that knows no block and has
received no call. -/
def initialWindow : MainWindow :=
  { syncHeight := 0, bestHeight := 0, connected := false,
    networkState := NETWORK_STATE_NOT_CONNECTED, resyncHeight := 0,
    host := "localhost", port := 8333,
    accountModel := { isOpen := false, numAccounts := 0, firstAccountTimeCreated := 0,
                      locatorHashes := [], txs := [], watchedScripts := [] },
    networkSync := { bestHeight := 0, sendTxCalls := [], resyncCalls := [],
                     resyncHeightCalls := [], bloomFilters := [], startCalls := 0,
                     stopCalls := 0, stopResyncCalls := 0 },
    syncLabel := "0/0", stateIndicator := [], statusMessages := ["Ready"], errors := [],
    syncHeightSignals := [], bestHeightSignals := [] }

/-- A connected window with one account that tracks best height 100 while
the network client reports 97. -/
def reorgWindow : MainWindow :=
  { initialWindow with
    syncHeight := 100, bestHeight := 100, connected := true,
    networkState := NETWORK_STATE_SYNCHED,
    accountModel := { initialWindow.accountModel with isOpen := true, numAccounts := 1 },
    networkSync := { initialWindow.networkSync with bestHeight := 97 } }

/-! ## Event sequences -/

/-- A sync-height update delivered to the window: raised by a new block
(`newBlock`), or forwarded from the wallet store's signal
`AccountModel::updateSyncHeight`. -/
inductive SyncHeightEvent
  | block (hash : bytes_t) (height : Int)
  | store (height : Int)
  deriving DecidableEq, Repr

/-- The window after one sync-height event. -/
def deliverSyncHeightEvent (w : MainWindow) : SyncHeightEvent → MainWindow
  | .block hash height => newBlock w hash height
  | .store height => accountModelUpdateSyncHeight w height

/-- The window after a sequence of sync-height events, first event first. -/
def deliverSyncHeightEvents (w : MainWindow) (events : List SyncHeightEvent) : MainWindow :=
  events.foldl deliverSyncHeightEvent w

/-- A wallet with one account created 3600 seconds after the epoch. -/
def earlyWallet : MainWindow :=
  { initialWindow with
    connected := true,
    accountModel := { initialWindow.accountModel with
      isOpen := true, numAccounts := 1, firstAccountTimeCreated := 3600,
      locatorHashes := [[1], [2]] } }

/-- A connected window with an open wallet holding one account. -/
def sendWindow : MainWindow :=
  { initialWindow with
    connected := true, networkState := NETWORK_STATE_SYNCHED,
    accountModel := { initialWindow.accountModel with
      isOpen := true, numAccounts := 1, firstAccountTimeCreated := 1386000000 } }

/-- A transaction. -/
def sampleTx : Transaction := { raw := [1, 0, 0, 0], hash := [222, 173] }

/-- An accepted dialog in sign-and-send mode in which every collaborator
succeeds and signing completes the transaction. -/
def signAndSendAttempt : CreateTxAttempt :=
  { status := CreateTxStatus.SIGN_AND_SEND,
    createTx := .ok sampleTx,
    insertTx := fun sign =>
      .ok { coin := sampleTx, status := if sign then TxStatus.SIGNED else TxStatus.UNSIGNED },
    sendTx := .ok (),
    addTx := .ok () }

/-! ## Network lifecycle -/

/-- `MainWindow::networkError`. -/
def networkError (w : MainWindow) (error : String) : MainWindow :=
  let message := "Network Error: " ++ error
  let w1 := emitStatus w message
  { w1 with connected := false }

/-- `MainWindow::networkStarted`. -/
def networkStarted (w : MainWindow) : MainWindow :=
  emitStatus { w with connected := true } "Network started"

/-- `MainWindow::networkStopped`. -/
def networkStopped (w : MainWindow) : MainWindow :=
  recomputeNetworkState { w with connected := false }

/-- `MainWindow::networkTimeout`. -/
def networkTimeout (w : MainWindow) : MainWindow :=
  emitStatus { w with connected := false } "Network timed out"

/-- `MainWindow::startNetworkSync`.  `netStart` is what the call
`networkSync.start(host, port)` does: return, or throw. -/
def startNetworkSync (w : MainWindow) (netStart : Except String Unit) : MainWindow :=
  let message := "Connecting to " ++ w.host ++ ":" ++ toString w.port ++ "..."
  let w1 := updateStatusMessage w message
  let w2 := { w1 with networkSync :=
    { w1.networkSync with startCalls := w1.networkSync.startCalls + 1 } }
  match netStart with
  | .ok _ => recomputeNetworkState w2
  | .error e => showError w2 e

/-! ## Resync coordinator, continued -/

/-- What the operator and the network client answer in
`MainWindow::promptResync`. -/
structure ResyncPrompt where
  /-- Whether the message box offering to connect is closed with Ok. -/
  connectNow : Bool
  /-- The outcome of `networkSync.start(host, port)`. -/
  networkStart : Except String Unit
  /-- The outcome of `networkSync.resync(locatorHashes, startTime)`. -/
  networkResync : Except String Unit

/-- `MainWindow::promptResync`. -/
def promptResync (w : MainWindow) (answers : ResyncPrompt) : Outcome :=
  if !w.connected then
    if answers.connectNow then ⟨startNetworkSync w answers.networkStart, none⟩
    else ⟨w, none⟩
  else resync w answers.networkResync

/-- `MainWindow::doneResync`. -/
def doneResync (w : MainWindow) : MainWindow :=
  emitStatus w "Finished resynch"

/-- What the resync dialog and the network client answer in
`MainWindow::resyncBlocks` after the dialog has been accepted. -/
structure ResyncBlocksAttempt where
  /-- The value of `dlg.getResyncHeight()`. -/
  resyncHeight : Int
  /-- The outcome of `networkSync.resync(resyncHeight)`. -/
  networkResync : Except String Unit

/-- `MainWindow::resyncBlocks`. -/
def resyncBlocks (w : MainWindow) (dialog : DialogResult ResyncBlocksAttempt) : MainWindow :=
  let w1 := if !w.connected then showError w "Must be connected to resync." else w
  match dialog with
  | .rejected => w1
  | .accepted a =>
    let w2 := { w1 with resyncHeight := a.resyncHeight }
    let w3 := { w2 with networkSync :=
      { w2.networkSync with
        resyncHeightCalls := w2.networkSync.resyncHeightCalls ++ [w2.resyncHeight] } }
    match a.networkResync with
    | .ok _ => w3
    | .error e => showError w3 e

/-! ## Bloom filter maintenance -/

/-- The statement `networkSync.setBloomFilter(accountModel->getBloomFilter(0.0001, 0, 0))`. -/
def installBloomFilter (w : MainWindow) : MainWindow :=
  { w with networkSync :=
    { w.networkSync with
      bloomFilters := w.networkSync.bloomFilters
        ++ [w.accountModel.getBloomFilter 0.0001 0 0] } }

/-- What the collaborators answer in `MainWindow::newAccount` after the
dialog has been accepted. -/
structure NewAccountAttempt where
  /-- The outcome of `accountModel->newAccount(name, minSigs, keychainNames)`:
  the wallet store after it, or an exception. -/
  newAccount : Except String AccountModel
  /-- The outcome of `networkSync.resync(locatorHashes, startTime)`. -/
  networkResync : Except String Unit

/-- `MainWindow::newAccount`.  `dialog` is `error` when the construction of
the dialog throws.  Every exception is shown with the one text of the
`catch` block. -/
def newAccount (w : MainWindow) (dialog : Except String (DialogResult NewAccountAttempt)) :
    MainWindow :=
  match dialog with
  | .error _ => showError w "No keychains selected."
  | .ok .rejected => w
  | .ok (.accepted a) =>
    match a.newAccount with
    | .error _ => showError w "No keychains selected."
    | .ok m =>
      let w1 := installBloomFilter { w with accountModel := m }
      if w1.connected then
        match resync w1 a.networkResync with
        | ⟨w2, none⟩ => w2
        | ⟨w2, some _⟩ => showError w2 "No keychains selected."
      else w1

/-- One run of the name prompt of `MainWindow::importAccount`: cancelled, or
a name together with the value of `accountModel->accountExists(name)`. -/
inductive NamePrompt
  | cancelled
  | entered (name : String) (accountExists : Bool)
  deriving DecidableEq, Repr

/-- The loop `while (true)` of `MainWindow::importAccount`, run against a
script of prompt results; a script that ends stands for a cancelled prompt.
The result is the accepted name, if any. -/
def importAccountName (w : MainWindow) : List NamePrompt → MainWindow × Option String
  | [] => (w, none)
  | .cancelled :: _ => (w, none)
  | .entered name accountExists :: rest =>
    if name.isEmpty then importAccountName (showError w "Name cannot be empty.") rest
    else if accountExists then
      importAccountName (showError w "There is already an account with that name.") rest
    else (w, some name)

/-- What the collaborators answer in the `try` block of
`MainWindow::importAccount`. -/
structure ImportAccountAttempt where
  /-- The outcome of `accountModel->importAccount(name, fileName)` and
  `accountModel->update()`: the wallet store after them, or an exception. -/
  importAccount : Except String AccountModel
  /-- The answers used by `promptResync()`. -/
  resyncPrompt : ResyncPrompt

/-- `MainWindow::importAccount`.  `fileDialog` is the file name chosen in the
file dialog, shown when `fileName` is empty. -/
def importAccount (w : MainWindow) (fileName fileDialog : String) (names : List NamePrompt)
    (a : ImportAccountAttempt) : MainWindow :=
  let fileName := if fileName.isEmpty then fileDialog else fileName
  if fileName.isEmpty then w
  else
    match importAccountName w names with
    | (w1, none) => w1
    | (w1, some name) =>
      let w2 := updateStatusMessage w1 "Importing account..."
      match a.importAccount with
      | .error e => showError w2 e
      | .ok m =>
        let w3 := installBloomFilter { w2 with accountModel := m }
        let w4 := updateStatusMessage w3 ("Imported account " ++ name)
        match promptResync w4 a.resyncPrompt with
        | ⟨w5, none⟩ => w5
        | ⟨w5, some e⟩ => showError w5 e

/-- `MainWindow::deleteAccount`.  `selected` is the name of the first
selected account, if any; `confirmed` is whether the question box is
answered with Yes; `deletion` is the outcome of
`accountModel->deleteAccount(accountName)`. -/
def deleteAccount (w : MainWindow) (selected : Option String) (confirmed : Bool)
    (deletion : Except String AccountModel) : MainWindow :=
  match selected with
  | none => showError w "No account selected."
  | some _accountName =>
    if confirmed then
      match deletion with
      | .error e => showError w e
      | .ok m => installBloomFilter { w with accountModel := m }
    else w

/-- `MainWindow::loadVault`.  `load` is the outcome of
`accountModel->load(fileName)`. -/
def loadVault (w : MainWindow) (load : Except String AccountModel) : Outcome :=
  match load with
  | .error e => ⟨w, some e⟩
  | .ok m => ⟨installBloomFilter { w with accountModel := m }, none⟩

/-- `MainWindow::openVault`.  `fileDialog` is the file name chosen in the
file dialog, shown when `fileName` is empty; file names are absolute. -/
def openVault (w : MainWindow) (fileName fileDialog : String)
    (load : Except String AccountModel) (prompt : ResyncPrompt) : MainWindow :=
  let fileName := if fileName.isEmpty then fileDialog else fileName
  if fileName.isEmpty then w
  else
    match loadVault w load with
    | ⟨w1, some e⟩ => showError w1 e
    | ⟨w1, none⟩ =>
      let w2 := updateStatusMessage w1 ("Opened " ++ fileName)
      match promptResync w2 prompt with
      | ⟨w3, none⟩ => w3
      | ⟨w3, some e⟩ => showError w3 e

/-! ## Further sample states -/

/-- The window of `sendWindow` without a connection. -/
def offlineWindow : MainWindow :=
  { sendWindow with connected := false, networkState := NETWORK_STATE_NOT_CONNECTED }

/-- A wallet store holding one account. -/
def sampleStore : AccountModel :=
  { isOpen := true, numAccounts := 1, firstAccountTimeCreated := 1386000000,
    locatorHashes := [[7]], txs := [], watchedScripts := [[118, 169]] }

/-- Answers to `promptResync()` in which the operator declines to connect. -/
def declineConnect : ResyncPrompt :=
  { connectNow := false, networkStart := .ok (), networkResync := .ok () }

/-- The window reached from the initial one when a vault is opened while
offline, the connection is then requested, and the network client reports
that it has started. -/
def startedWindow : MainWindow :=
  networkStarted
    (startNetworkSync
      (openVault initialWindow "/w.vault" "" (.ok sampleStore) declineConnect) (.ok ()))

/-! ## Operations outside the chain events -/

/-- The chain height pair of section 3. -/
def heightPair (w : MainWindow) : Int × Int := (w.syncHeight, w.bestHeight)

/-- `MainWindow::doneSync`.  `netResync` is the outcome of the call of
`networkSync.resync` made by `resync()`. -/
def doneSync (w : MainWindow) (netResync : Except String Unit) : MainWindow :=
  let w1 := emitUpdateBestHeight w w.networkSync.bestHeight
  let w2 := emitStatus w1 "Finished headers sync"
  if w2.accountModel.isOpen then
    match resync w2 netResync with
    | ⟨w3, none⟩ => w3
    | ⟨w3, some e⟩ => emitStatus w3 e
  else w2

/-- The part of the script of dialog results that the loop of
`MainWindow::createTx` leaves unread: every run of `dlg.exec()` reads one
result, and the condition `!saved && dlg.exec()` does not run the dialog
once `saved` is true. -/
def createTxLoopUnread (w : MainWindow) :
    List (DialogResult CreateTxAttempt) → List (DialogResult CreateTxAttempt)
  | [] => []
  | .rejected :: rest => rest
  | .accepted a :: rest =>
    match createTxAttempt w a with
    | (_, _, none) => rest
    | (w1, saved, some e) =>
      if saved then rest else createTxLoopUnread (showError w1 e) rest

/-- Comparison of two character sequences up to case: zero when they agree,
else the difference of the first two characters that differ, or the sign of
the difference in length. -/
def compareChars : List Char → List Char → Int
  | [], [] => 0
  | [], _ :: _ => -1
  | _ :: _, [] => 1
  | a :: as, b :: bs =>
    if a.toLower = b.toLower then compareChars as bs
    else (a.toLower.toNat : Int) - (b.toLower.toNat : Int)

/-- The value of `a.compare(b, Qt::CaseInsensitive)` for two strings, a
function of the Qt library: zero when the strings are equal up to case,
negative or positive otherwise. -/
def compareCaseInsensitive (a b : String) : Int :=
  compareChars a.data b.data

/-- `MainWindow::processUrl`.  `scheme` is the value of `url.scheme()`;
`paymentRequest` is the outcome of constructing the payment request from
the URL; `selected` and `dialog` are the answers used by `createTx`.  An
`int` used as a condition is true when it is not zero. -/
def processUrl (w : MainWindow) (scheme : String) (paymentRequest : Except String Unit)
    (selected : Option String) (dialog : List (DialogResult CreateTxAttempt)) : MainWindow :=
  if compareCaseInsensitive scheme "bitcoin:" ≠ 0 then
    match paymentRequest with
    | .error e => showError w e
    | .ok _ => createTx w selected dialog
  else showError w "Unhandled URL protocol"

/-- The window of `offlineWindow` with best height 97 while the network
client reports 100. -/
def behindWindow : MainWindow :=
  { offlineWindow with
    bestHeight := 97, networkSync := { offlineWindow.networkSync with bestHeight := 100 } }

/-- An open wallet whose earliest account creation time is zero. -/
def zeroTimeWallet : MainWindow :=
  { initialWindow with
    accountModel := { initialWindow.accountModel with isOpen := true, locatorHashes := [[9]] } }

/-! ## The remaining handlers of the orchestration core -/

theorem wrapInt32_eq_self (x : Int) (h1 : -2147483648 ≤ x) (h2 : x ≤ 2147483647) :
    wrapInt32 x = x := by
  unfold wrapInt32
  rw [Int.emod_eq_of_lt (by omega) (by omega)]
  omega

theorem resolveNetworkState_unknown (w : MainWindow) :
    resolveNetworkState w NETWORK_STATE_UNKNOWN
      = recompute w.connected w.accountModel.numAccounts w.syncHeight w.bestHeight := by
  unfold resolveNetworkState recompute
  cases hc : w.connected <;> simp

theorem recompute_ne_unknown (c : Bool) (a s b : Int) :
    recompute c a s b ≠ NETWORK_STATE_UNKNOWN := by
  unfold recompute
  split
  · simp
  · split <;> simp

theorem recomputeNetworkState_networkState (w : MainWindow) :
    (recomputeNetworkState w).networkState
      = recompute w.connected w.accountModel.numAccounts w.syncHeight w.bestHeight := by
  unfold recomputeNetworkState updateNetworkState
  rw [resolveNetworkState_unknown]
  by_cases h : recompute w.connected w.accountModel.numAccounts w.syncHeight w.bestHeight
      = w.networkState
  · simp [h]
  · simp [h]

theorem recomputeNetworkState_syncHeight (w : MainWindow) :
    (recomputeNetworkState w).syncHeight = w.syncHeight := by
  unfold recomputeNetworkState updateNetworkState
  simp only []
  split <;> rfl

theorem recomputeNetworkState_bestHeight (w : MainWindow) :
    (recomputeNetworkState w).bestHeight = w.bestHeight := by
  unfold recomputeNetworkState updateNetworkState
  simp only []
  split <;> rfl

theorem recomputeNetworkState_statusMessages (w : MainWindow) :
    (recomputeNetworkState w).statusMessages = w.statusMessages := by
  unfold recomputeNetworkState updateNetworkState
  simp only []
  split <;> rfl

theorem recomputeNetworkState_syncHeightSignals (w : MainWindow) :
    (recomputeNetworkState w).syncHeightSignals = w.syncHeightSignals := by
  unfold recomputeNetworkState updateNetworkState
  simp only []
  split <;> rfl

theorem recomputeNetworkState_bestHeightSignals (w : MainWindow) :
    (recomputeNetworkState w).bestHeightSignals = w.bestHeightSignals := by
  unfold recomputeNetworkState updateNetworkState
  simp only []
  split <;> rfl

theorem emitUpdateSyncHeight_syncHeight (w : MainWindow) (h : Int) :
    (emitUpdateSyncHeight w h).syncHeight = h := by
  unfold emitUpdateSyncHeight onUpdateSyncHeight
  rw [recomputeNetworkState_syncHeight]
  rfl

theorem emitUpdateSyncHeight_signals (w : MainWindow) (h : Int) :
    (emitUpdateSyncHeight w h).syncHeightSignals = w.syncHeightSignals ++ [h] := by
  unfold emitUpdateSyncHeight onUpdateSyncHeight
  rw [recomputeNetworkState_syncHeightSignals]
  rfl

theorem emitUpdateBestHeight_syncHeight (w : MainWindow) (h : Int) :
    (emitUpdateBestHeight w h).syncHeight = w.syncHeight := by
  unfold emitUpdateBestHeight onUpdateBestHeight
  rw [recomputeNetworkState_syncHeight]
  rfl

theorem emitUpdateBestHeight_bestHeight (w : MainWindow) (h : Int) :
    (emitUpdateBestHeight w h).bestHeight = h := by
  unfold emitUpdateBestHeight onUpdateBestHeight
  rw [recomputeNetworkState_bestHeight]
  rfl

theorem emitUpdateBestHeight_signals (w : MainWindow) (h : Int) :
    (emitUpdateBestHeight w h).bestHeightSignals = w.bestHeightSignals ++ [h] := by
  unfold emitUpdateBestHeight onUpdateBestHeight
  rw [recomputeNetworkState_bestHeightSignals]
  rfl

theorem emitUpdateBestHeight_statusMessages (w : MainWindow) (h : Int) :
    (emitUpdateBestHeight w h).statusMessages = w.statusMessages := by
  unfold emitUpdateBestHeight onUpdateBestHeight
  rw [recomputeNetworkState_statusMessages]
  rfl

theorem newBlock_syncHeight_eq (w : MainWindow) (hash : bytes_t) (h : Int) :
    (newBlock w hash h).syncHeight = max w.syncHeight h := by
  unfold newBlock emitStatus updateStatusMessage
  by_cases hgt : h > w.syncHeight
  · simp only [hgt, if_true]
    rw [emitUpdateSyncHeight_syncHeight]
    omega
  · simp only [hgt, if_false]
    omega

/-! ### Session state machine -/

/-- C1: a call of `updateNetworkState()` without an explicit state computes
and stores the state given by the rule of section 4.1, for every window:
NOT_CONNECTED when not connected; else SYNCHING when the account count is
positive and the heights differ (the sync height may be the greater one);
else SYNCHED.  The stored state is one of these three and never the
placeholder UNKNOWN. -/
theorem updateNetworkState_rule (w : MainWindow) :
    resolveNetworkState w NETWORK_STATE_UNKNOWN = (recomputeNetworkState w).networkState
    ∧ (recomputeNetworkState w).networkState
        = recompute w.connected w.accountModel.numAccounts w.syncHeight w.bestHeight
    ∧ (w.connected = false →
        (recomputeNetworkState w).networkState = NETWORK_STATE_NOT_CONNECTED)
    ∧ (w.connected = true → w.accountModel.numAccounts > 0 → w.syncHeight ≠ w.bestHeight →
        (recomputeNetworkState w).networkState = NETWORK_STATE_SYNCHING)
    ∧ (w.connected = true → w.accountModel.numAccounts > 0 → w.syncHeight > w.bestHeight →
        (recomputeNetworkState w).networkState = NETWORK_STATE_SYNCHING)
    ∧ (w.connected = true → ¬ (w.accountModel.numAccounts > 0 ∧ w.syncHeight ≠ w.bestHeight) →
        (recomputeNetworkState w).networkState = NETWORK_STATE_SYNCHED)
    ∧ (recomputeNetworkState w).networkState ∈
        [NETWORK_STATE_NOT_CONNECTED, NETWORK_STATE_SYNCHING, NETWORK_STATE_SYNCHED]
    ∧ (recomputeNetworkState w).networkState ≠ NETWORK_STATE_UNKNOWN := by
  rw [recomputeNetworkState_networkState]
  refine ⟨resolveNetworkState_unknown w, rfl, ?_, ?_, ?_, ?_, ?_, recompute_ne_unknown _ _ _ _⟩
  · intro hc
    simp [recompute, hc]
  · intro hc ha hne
    simp [recompute, hc, ha, hne]
  · intro hc ha hgt
    have hne : w.syncHeight ≠ w.bestHeight := by omega
    simp [recompute, hc, ha, hne]
  · intro hc hn
    simp only [recompute, hc, hn]
    simp
  · unfold recompute
    split
    · simp
    · split <;> simp

/-- The indicator shown for a recomputed state: exactly one entry, the icon
of that state. -/
theorem indicatorOf_recompute (c : Bool) (a s b : Int) :
    indicatorOf (recompute c a s b)
      = [if c = false then StateIndicator.notConnectedIcon
         else if a > 0 ∧ s ≠ b then StateIndicator.synchingMovie
         else StateIndicator.synchedIcon] := by
  unfold recompute
  split
  · rfl
  · split <;> rfl

/-- C2: recomputing the session state twice in a row is the same as
recomputing it once: the second call changes nothing at all (no indicator
update), and so does every further call.  The first call reports a
transition exactly once: when the recomputed state differs from the stored
one the indicator record grows by exactly one entry, the icon of the new
state, and when it does not differ the record is unchanged. -/
theorem updateNetworkState_idempotent (w : MainWindow) :
    recomputeNetworkState (recomputeNetworkState w) = recomputeNetworkState w
    ∧ (recomputeNetworkState (recomputeNetworkState w)).stateIndicator
        = (recomputeNetworkState w).stateIndicator
    ∧ (recomputeNetworkState w).stateIndicator
        = w.stateIndicator ++
          (if recompute w.connected w.accountModel.numAccounts w.syncHeight w.bestHeight
              = w.networkState then []
           else indicatorOf
              (recompute w.connected w.accountModel.numAccounts w.syncHeight w.bestHeight))
    ∧ (recomputeNetworkState w).stateIndicator
        = w.stateIndicator ++
          (if recompute w.connected w.accountModel.numAccounts w.syncHeight w.bestHeight
              = w.networkState then []
           else [if w.connected = false then StateIndicator.notConnectedIcon
                 else if w.accountModel.numAccounts > 0 ∧ w.syncHeight ≠ w.bestHeight then
                   StateIndicator.synchingMovie
                 else StateIndicator.synchedIcon])
    ∧ (recomputeNetworkState w).stateIndicator.length
        = w.stateIndicator.length +
          (if recompute w.connected w.accountModel.numAccounts w.syncHeight w.bestHeight
              = w.networkState then 0 else 1)
    ∧ (recomputeNetworkState w).networkState
        = recompute w.connected w.accountModel.numAccounts w.syncHeight w.bestHeight
    ∧ ∀ n : Nat, (recomputeNetworkState^[n + 1]) w = recomputeNetworkState w := by
  have key : recomputeNetworkState (recomputeNetworkState w) = recomputeNetworkState w := by
    have hns := recomputeNetworkState_networkState w
    unfold recomputeNetworkState updateNetworkState at hns ⊢
    rw [resolveNetworkState_unknown] at hns ⊢
    by_cases h : recompute w.connected w.accountModel.numAccounts w.syncHeight w.bestHeight
        = w.networkState
    · simp [h, resolveNetworkState_unknown]
    · simp [h, resolveNetworkState_unknown]
  have hind : (recomputeNetworkState w).stateIndicator
      = w.stateIndicator ++
        (if recompute w.connected w.accountModel.numAccounts w.syncHeight w.bestHeight
            = w.networkState then []
         else indicatorOf
            (recompute w.connected w.accountModel.numAccounts w.syncHeight w.bestHeight)) := by
    unfold recomputeNetworkState updateNetworkState
    rw [resolveNetworkState_unknown]
    by_cases h : recompute w.connected w.accountModel.numAccounts w.syncHeight w.bestHeight
        = w.networkState
    · simp [h]
    · simp [h]
  refine ⟨key, by rw [key], hind, ?_, ?_, recomputeNetworkState_networkState w, ?_⟩
  · rw [hind, indicatorOf_recompute]
  · rw [hind, indicatorOf_recompute]
    by_cases h : recompute w.connected w.accountModel.numAccounts w.syncHeight w.bestHeight
        = w.networkState
    · simp [h]
    · simp [h]
  · intro n
    induction n with
    | zero => rfl
    | succ k ih =>
      rw [Function.iterate_succ_apply', ih]
      exact key

/-! ### Chain tracker -/

/-- C3: reorg arithmetic of `removeBestChain`.  With tracked best height `p`
and network best height `n` such that `p - n` is not negative (and
`p - n + 1` is a value of `int`), exactly one status message is emitted, it
names `p - n + 1` blocks, the new best height is `n`, announced by one
best-height signal, and none of this depends on the removed header. -/
theorem removeBestChain_reorg (w : MainWindow) (header : chain_header_t)
    (hdiff : 0 ≤ w.bestHeight - w.networkSync.bestHeight)
    (hfit : w.bestHeight - w.networkSync.bestHeight + 1 ≤ 2147483647) :
    (removeBestChain w header).statusMessages
        = w.statusMessages ++
          ["Reorganization of "
            ++ toString (w.bestHeight - w.networkSync.bestHeight + 1) ++ " blocks"]
    ∧ (removeBestChain w header).bestHeight = w.networkSync.bestHeight
    ∧ (removeBestChain w header).bestHeightSignals
        = w.bestHeightSignals ++ [w.networkSync.bestHeight]
    ∧ ∀ other : chain_header_t, removeBestChain w other = removeBestChain w header := by
  have h1 : wrapInt32 (w.bestHeight - w.networkSync.bestHeight)
      = w.bestHeight - w.networkSync.bestHeight :=
    wrapInt32_eq_self _ (by omega) (by omega)
  have h2 : wrapInt32 (w.bestHeight - w.networkSync.bestHeight + 1)
      = w.bestHeight - w.networkSync.bestHeight + 1 :=
    wrapInt32_eq_self _ (by omega) hfit
  refine ⟨?_, ?_, ?_, fun _ => rfl⟩
  · unfold removeBestChain
    simp only [h1, h2, ge_iff_le, hdiff, if_true]
    rw [emitUpdateBestHeight_statusMessages]
    rfl
  · unfold removeBestChain
    simp only [h1, h2, ge_iff_le, hdiff, if_true]
    rw [emitUpdateBestHeight_bestHeight]
    rfl
  · unfold removeBestChain
    simp only [h1, h2, ge_iff_le, hdiff, if_true]
    rw [emitUpdateBestHeight_signals]
    rfl

/-- Witness for C3: tracked best height 100, network best height 97: one
message naming 4 blocks is added to the one message present before, and the
best height is 97. -/
theorem removeBestChain_reorg_witness :
    reorgWindow.statusMessages = ["Ready"]
    ∧ (removeBestChain reorgWindow ⟨98, [171]⟩).statusMessages
        = ["Ready", "Reorganization of 4 blocks"]
    ∧ (removeBestChain reorgWindow ⟨98, [171]⟩).bestHeight = 97 := by
  have h := removeBestChain_reorg reorgWindow ⟨98, [171]⟩ (by decide) (by decide)
  exact ⟨rfl, h.1.trans (by decide), h.2.1.trans rfl⟩

/-- C4: after `newBlock(hash, h)` the tracked sync height is the maximum of
the previous one and `h`; the signal `updateSyncHeight` is emitted (once,
with `h`) exactly when `h` exceeds the previous sync height, so a block at
or below it leaves the sync height unchanged and triggers no update. -/
theorem newBlock_monotone (w : MainWindow) (hash : bytes_t) (h : Int) :
    (newBlock w hash h).syncHeight = max w.syncHeight h
    ∧ (newBlock w hash h).syncHeightSignals
        = w.syncHeightSignals ++ (if h > w.syncHeight then [h] else [])
    ∧ (newBlock w hash h).syncHeight
        = (if h ≤ w.syncHeight then w.syncHeight else h) := by
  refine ⟨newBlock_syncHeight_eq w hash h, ?_, ?_⟩
  · unfold newBlock emitStatus updateStatusMessage
    by_cases hgt : h > w.syncHeight
    · simp only [hgt, if_true]
      rw [emitUpdateSyncHeight_signals]
    · simp [hgt]
  · rw [newBlock_syncHeight_eq]
    by_cases hle : h ≤ w.syncHeight
    · simp [hle]
    · simp only [hle, if_false]
      omega

/-- C6: `removeBestChain` and `addBestChain` leave the tracked sync height
exactly as it was, for every window and header, whatever the best height
reported by the network client. -/
theorem bestChain_preserves_syncHeight (w : MainWindow) (header : chain_header_t) :
    (removeBestChain w header).syncHeight = w.syncHeight
    ∧ (addBestChain w header).syncHeight = w.syncHeight := by
  constructor
  · unfold removeBestChain
    simp only []
    split
    · rw [emitUpdateBestHeight_syncHeight]
      rfl
    · rfl
  · unfold addBestChain
    exact emitUpdateBestHeight_syncHeight w header.height

theorem newBlocks_syncHeight_le (blocks : List (bytes_t × Int)) (w : MainWindow) :
    w.syncHeight ≤ (deliverSyncHeightEvents w
      (blocks.map fun b => SyncHeightEvent.block b.1 b.2)).syncHeight := by
  induction blocks generalizing w with
  | nil => exact le_refl _
  | cons b rest ih =>
    have step : w.syncHeight ≤ (newBlock w b.1 b.2).syncHeight := by
      rw [newBlock_syncHeight_eq]
      exact le_max_left _ _
    have tail := ih (newBlock w b.1 b.2)
    unfold deliverSyncHeightEvents at tail ⊢
    simp only [List.map_cons, List.foldl_cons, deliverSyncHeightEvent]
    exact le_trans step tail

/-- Counterexample for C5: a window at sync height 100 that receives the
wallet store's update with height 5 is at sync height 5 afterwards. -/
theorem syncHeight_store_update_decreases :
    reorgWindow.syncHeight = 100
    ∧ (deliverSyncHeightEvents reorgWindow [SyncHeightEvent.store 5]).syncHeight = 5
    ∧ ¬ (reorgWindow.syncHeight
          ≤ (deliverSyncHeightEvents reorgWindow [SyncHeightEvent.store 5]).syncHeight) := by
  decide

/-- C5, amended: over every sequence of new-block notifications the tracked
sync height never decreases, and a single notification leaves it at the
maximum of its previous value and the block height (unchanged when the
block is not higher); an update forwarded from the wallet store's signal
`updateSyncHeight` sets the sync height to the height it carries,
whether higher or lower. -/
theorem syncHeight_monotone_under_newBlock (w : MainWindow)
    (blocks : List (bytes_t × Int)) (hash : bytes_t) (h : Int) :
    w.syncHeight ≤ (deliverSyncHeightEvents w
        (blocks.map fun b => SyncHeightEvent.block b.1 b.2)).syncHeight
    ∧ (deliverSyncHeightEvents w [SyncHeightEvent.block hash h]).syncHeight
        = max w.syncHeight h
    ∧ (deliverSyncHeightEvents w [SyncHeightEvent.store h]).syncHeight = h := by
  refine ⟨newBlocks_syncHeight_le blocks w, ?_, ?_⟩
  · exact newBlock_syncHeight_eq w hash h
  · exact emitUpdateSyncHeight_syncHeight w h

/-! ### Resync coordinator -/

theorem wrapUInt32_sub_of_le (t : Nat) (h1 : 7200 ≤ t) (h2 : t < 4294967296) :
    wrapUInt32 ((t : Int) - 7200) = t - 7200 := by
  unfold wrapUInt32
  rw [Int.emod_eq_of_lt (by omega) (by omega)]
  omega

theorem wrapUInt32_sub_of_lt (t : Nat) (h1 : t < 7200) :
    wrapUInt32 ((t : Int) - 7200) = t + 4294960096 := by
  unfold wrapUInt32
  have h : ((t : Int) - 7200) % 4294967296 = (t : Int) + 4294960096 := by
    omega
  rw [h]
  omega

/-- The request made by `resync()`: exactly one, with the locator hashes of
the wallet store unchanged and in order.  Its start time is the creation time
less 7200 when the creation time is at least 7200. -/
theorem resync_request_of_late_creation (w : MainWindow) (netResult : Except String Unit)
    (h1 : 7200 ≤ w.accountModel.firstAccountTimeCreated)
    (h2 : w.accountModel.firstAccountTimeCreated < 4294967296) :
    (resync w netResult).window.networkSync.resyncCalls
      = w.networkSync.resyncCalls ++
        [⟨w.accountModel.locatorHashes, w.accountModel.firstAccountTimeCreated - 7200⟩] := by
  unfold resync updateStatusMessage
  cases netResult <;> simp [wrapUInt32_sub_of_le _ h1 h2]

/-- The request made by `resync()` when the creation time is below 7200: the
start time is the creation time plus `2^32 - 7200`. -/
theorem resync_request_of_early_creation (w : MainWindow) (netResult : Except String Unit)
    (h1 : w.accountModel.firstAccountTimeCreated < 7200) :
    (resync w netResult).window.networkSync.resyncCalls
      = w.networkSync.resyncCalls ++
        [⟨w.accountModel.locatorHashes,
          w.accountModel.firstAccountTimeCreated + 4294960096⟩] := by
  unfold resync updateStatusMessage
  cases netResult <;> simp [wrapUInt32_sub_of_lt _ h1]

/-- C7, at a wallet whose earliest account was created at time 3600:
`resync()` makes one request, with the locator hashes unchanged, whose start
time is 4294963696 and not 3600 - 7200; the start time lies after the
creation time. -/
theorem resync_early_wallet_start_time :
    (resync earlyWallet (.ok ())).window.networkSync.resyncCalls
      = [⟨[[1], [2]], 4294963696⟩]
    ∧ earlyWallet.accountModel.firstAccountTimeCreated = 3600
    ∧ ((4294963696 : Nat) : Int) ≠ 3600 - 7200
    ∧ (3600 : Nat) < 4294963696 := by
  decide

/-! ### Transaction submission -/

/-- The pass through the body of `createTx` in sign-and-send mode when both
guards pass and every collaborator succeeds: the transaction is handed to
`sendTx` once and written to the store with status RECEIVED. -/
theorem createTxAttempt_send_success (w : MainWindow) (a : CreateTxAttempt)
    (coin : Transaction) (tx : VaultTx)
    (hs : a.status = CreateTxStatus.SIGN_AND_SEND) (hc : a.createTx = .ok coin)
    (hi : a.insertTx true = .ok tx) (hsigned : tx.status ≠ TxStatus.UNSIGNED)
    (hconn : w.connected = true) (hsend : a.sendTx = .ok ()) (hadd : a.addTx = .ok ()) :
    createTxAttempt w a
      = ({ w with
            accountModel :=
              (w.accountModel.stored tx).addTx { tx with status := TxStatus.RECEIVED },
            networkSync :=
              { w.networkSync with sendTxCalls := w.networkSync.sendTxCalls ++ [tx.coin] } },
          true, none) := by
  unfold createTxAttempt
  simp [hs, hc, hi, hsigned, hconn, hsend, hadd]

/-- `sendRawTx` never writes to the wallet store. -/
theorem sendRawTx_accountModel (w : MainWindow) (dialog : DialogResult SendRawTxAttempt) :
    (sendRawTx w dialog).accountModel = w.accountModel := by
  unfold sendRawTx
  cases hc : w.connected
  · simp [showError, updateStatusMessage]
  · cases dialog with
    | rejected => simp
    | accepted a =>
      cases ht : a.tx with
      | error e => simp [hc, ht, showError, updateStatusMessage]
      | ok tx =>
        cases hsend : a.sendTx with
        | error e => simp [hc, ht, hsend, showError, updateStatusMessage]
        | ok u => simp [hc, ht, hsend, updateStatusMessage]

/-- C8, at a connected window and a dialog accepted in sign-and-send mode
where signing and sending succeed: when `createTx` returns, with no network
event delivered, the transaction is in the wallet store with status
RECEIVED. -/
theorem createTx_assigns_received :
    (createTx sendWindow (some "savings") [.accepted signAndSendAttempt]).accountModel.txs
      = [{ coin := sampleTx, status := TxStatus.RECEIVED }]
    ∧ sendWindow.accountModel.txs = [] := by
  decide

/-- C9, at the same input: after the successful broadcast the stored
transaction has status RECEIVED, which is not SENT; it was handed to
`sendTx` exactly once, and no error was shown. -/
theorem createTx_success_not_sent :
    ((createTx sendWindow (some "savings") [.accepted signAndSendAttempt]).accountModel.txs.map
        fun t => t.status) = [TxStatus.RECEIVED]
    ∧ TxStatus.RECEIVED ≠ TxStatus.SENT
    ∧ (createTx sendWindow (some "savings")
        [.accepted signAndSendAttempt]).networkSync.sendTxCalls = [sampleTx]
    ∧ (createTx sendWindow (some "savings") [.accepted signAndSendAttempt]).errors = [] := by
  decide

/-- C10: the broadcast guard of `createTx` in sign-and-send mode.  After a
successful insertion the transaction is handed to `sendTx` (once) exactly
when its status is not UNSIGNED and the window is connected.  With status
UNSIGNED the error is the missing-signatures one; otherwise, when not
connected, the must-be-connected one; in both cases `sendTx` is not called. -/
theorem createTx_broadcast_guard (w : MainWindow) (name : String) (a : CreateTxAttempt)
    (rest : List (DialogResult CreateTxAttempt)) (coin : Transaction) (tx : VaultTx)
    (hs : a.status = CreateTxStatus.SIGN_AND_SEND) (hc : a.createTx = .ok coin)
    (hi : a.insertTx true = .ok tx) :
    (createTx w (some name) (.accepted a :: rest)).networkSync.sendTxCalls
        = w.networkSync.sendTxCalls ++
          (if tx.status ≠ TxStatus.UNSIGNED ∧ w.connected = true then [tx.coin] else [])
    ∧ (tx.status = TxStatus.UNSIGNED →
        (createTx w (some name) (.accepted a :: rest)).errors
            = w.errors ++ ["Could not send - transaction still missing signatures."]
        ∧ (createTx w (some name) (.accepted a :: rest)).networkSync.sendTxCalls
            = w.networkSync.sendTxCalls)
    ∧ (tx.status ≠ TxStatus.UNSIGNED → w.connected = false →
        (createTx w (some name) (.accepted a :: rest)).errors
            = w.errors ++ ["Must be connected to network to send."]
        ∧ (createTx w (some name) (.accepted a :: rest)).networkSync.sendTxCalls
            = w.networkSync.sendTxCalls) := by
  by_cases hu : tx.status = TxStatus.UNSIGNED
  · have hrun : createTx w (some name) (.accepted a :: rest)
        = showError { w with accountModel := w.accountModel.stored tx }
            "Could not send - transaction still missing signatures." := by
      unfold createTx createTxLoop createTxAttempt
      simp [hs, hc, hi, hu]
    rw [hrun]
    simp [hu, showError, updateStatusMessage]
  · cases hconn : w.connected
    · have hrun : createTx w (some name) (.accepted a :: rest)
          = showError { w with accountModel := w.accountModel.stored tx }
              "Must be connected to network to send." := by
        unfold createTx createTxLoop createTxAttempt
        simp [hs, hc, hi, hu, hconn]
      rw [hrun]
      simp [hu, showError, updateStatusMessage]
    · unfold createTx createTxLoop createTxAttempt
      cases hsend : a.sendTx with
      | error e => simp [hs, hc, hi, hu, hconn, hsend, showError, updateStatusMessage]
      | ok u =>
        cases hadd : a.addTx with
        | error e => simp [hs, hc, hi, hu, hconn, hsend, hadd, showError, updateStatusMessage]
        | ok u2 => simp [hs, hc, hi, hu, hconn, hsend, hadd]

/-- Witness for C10: a connected window and a transaction signed on
insertion: the transaction is handed to `sendTx`. -/
theorem createTx_broadcast_guard_witness :
    (createTx sendWindow (some "savings") [.accepted signAndSendAttempt]).networkSync.sendTxCalls
      = [sampleTx] :=
  (createTx_broadcast_guard sendWindow "savings" signAndSendAttempt [] sampleTx
    { coin := sampleTx, status := TxStatus.SIGNED } rfl rfl rfl).1

/-! ### Frame of the session-state recomputation -/

theorem recomputeNetworkState_frame (w : MainWindow) :
    ∃ ns ind, recomputeNetworkState w = { w with networkState := ns, stateIndicator := ind } := by
  unfold recomputeNetworkState updateNetworkState
  simp only []
  split
  · exact ⟨_, _, rfl⟩
  · exact ⟨w.networkState, w.stateIndicator, rfl⟩

theorem recomputeNetworkState_connected (w : MainWindow) :
    (recomputeNetworkState w).connected = w.connected := by
  obtain ⟨ns, ind, h⟩ := recomputeNetworkState_frame w
  rw [h]

theorem recomputeNetworkState_accountModel (w : MainWindow) :
    (recomputeNetworkState w).accountModel = w.accountModel := by
  obtain ⟨ns, ind, h⟩ := recomputeNetworkState_frame w
  rw [h]

theorem recomputeNetworkState_networkSync (w : MainWindow) :
    (recomputeNetworkState w).networkSync = w.networkSync := by
  obtain ⟨ns, ind, h⟩ := recomputeNetworkState_frame w
  rw [h]

theorem recomputeNetworkState_idem (w : MainWindow) :
    recomputeNetworkState (recomputeNetworkState w) = recomputeNetworkState w := by
  unfold recomputeNetworkState updateNetworkState
  rw [resolveNetworkState_unknown]
  by_cases h : recompute w.connected w.accountModel.numAccounts w.syncHeight w.bestHeight
      = w.networkState
  · simp [h, resolveNetworkState_unknown]
  · simp [h, resolveNetworkState_unknown]

theorem onUpdateBestHeight_idem (w : MainWindow) (h : Int) :
    onUpdateBestHeight (onUpdateBestHeight w h) h = onUpdateBestHeight w h := by
  have hfix : updateSyncLabel { onUpdateBestHeight w h with bestHeight := h }
      = onUpdateBestHeight w h := by
    unfold onUpdateBestHeight
    obtain ⟨ns, ind, hf⟩ := recomputeNetworkState_frame (updateSyncLabel { w with bestHeight := h })
    rw [hf]
    rfl
  show recomputeNetworkState (updateSyncLabel { onUpdateBestHeight w h with bestHeight := h })
      = onUpdateBestHeight w h
  rw [hfix]
  unfold onUpdateBestHeight
  exact recomputeNetworkState_idem _

/-- C11: a failed send step of `createTx` leaves the transaction as it was
inserted.  In sign-and-send mode, after a successful insertion, when the
transaction is still unsigned, or the window is not connected, or `sendTx`
throws, the wallet store holds the transaction with the status it had after
insertion and nothing else is changed in the store; the error text is shown
once; the handler ends there, whatever dialog results would follow. -/
theorem createTx_failed_send_keeps_status (w : MainWindow) (name : String)
    (a : CreateTxAttempt) (rest : List (DialogResult CreateTxAttempt))
    (coin : Transaction) (tx : VaultTx)
    (hs : a.status = CreateTxStatus.SIGN_AND_SEND) (hc : a.createTx = .ok coin)
    (hi : a.insertTx true = .ok tx)
    (hfail : tx.status = TxStatus.UNSIGNED ∨ w.connected = false
      ∨ ∃ e, a.sendTx = .error e) :
    (createTx w (some name) (.accepted a :: rest)).accountModel.txs = w.accountModel.txs ++ [tx]
    ∧ (createTx w (some name) (.accepted a :: rest)).accountModel = w.accountModel.stored tx
    ∧ (∃ e, (createTx w (some name) (.accepted a :: rest)).errors = w.errors ++ [e])
    ∧ (tx.status = TxStatus.UNSIGNED →
        createTx w (some name) (.accepted a :: rest)
          = showError { w with accountModel := w.accountModel.stored tx }
              "Could not send - transaction still missing signatures.")
    ∧ (tx.status ≠ TxStatus.UNSIGNED → w.connected = false →
        createTx w (some name) (.accepted a :: rest)
          = showError { w with accountModel := w.accountModel.stored tx }
              "Must be connected to network to send.")
    ∧ (tx.status ≠ TxStatus.UNSIGNED → w.connected = true → ∀ e, a.sendTx = .error e →
        createTx w (some name) (.accepted a :: rest)
          = showError { w with
              accountModel := w.accountModel.stored tx,
              networkSync := { w.networkSync with
                sendTxCalls := w.networkSync.sendTxCalls ++ [tx.coin] } } e) := by
  have h1 : tx.status = TxStatus.UNSIGNED →
      createTx w (some name) (.accepted a :: rest)
        = showError { w with accountModel := w.accountModel.stored tx }
            "Could not send - transaction still missing signatures." := by
    intro hu
    unfold createTx createTxLoop createTxAttempt
    simp [hs, hc, hi, hu]
  have h2 : tx.status ≠ TxStatus.UNSIGNED → w.connected = false →
      createTx w (some name) (.accepted a :: rest)
        = showError { w with accountModel := w.accountModel.stored tx }
            "Must be connected to network to send." := by
    intro hu hconn
    unfold createTx createTxLoop createTxAttempt
    simp [hs, hc, hi, hu, hconn]
  have h3 : tx.status ≠ TxStatus.UNSIGNED → w.connected = true → ∀ e, a.sendTx = .error e →
      createTx w (some name) (.accepted a :: rest)
        = showError { w with
            accountModel := w.accountModel.stored tx,
            networkSync := { w.networkSync with
              sendTxCalls := w.networkSync.sendTxCalls ++ [tx.coin] } } e := by
    intro hu hconn e hsend
    unfold createTx createTxLoop createTxAttempt
    simp [hs, hc, hi, hu, hconn, hsend]
  have hall : ∃ w0 e, createTx w (some name) (.accepted a :: rest) = showError w0 e
      ∧ w0.accountModel = w.accountModel.stored tx ∧ w0.errors = w.errors := by
    by_cases hu : tx.status = TxStatus.UNSIGNED
    · exact ⟨_, _, h1 hu, rfl, rfl⟩
    · cases hconn : w.connected
      · exact ⟨_, _, h2 hu hconn, rfl, rfl⟩
      · rcases hfail with hf | hf | ⟨e, hf⟩
        · exact absurd hf hu
        · rw [hconn] at hf
          exact absurd hf (by simp)
        · exact ⟨_, _, h3 hu hconn e hf, rfl, rfl⟩
  obtain ⟨w0, e, hrun, hstore, herr⟩ := hall
  refine ⟨?_, ?_, ⟨e, ?_⟩, h1, h2, h3⟩
  · rw [hrun]
    simp [showError, updateStatusMessage, hstore, AccountModel.stored]
  · rw [hrun]
    simp [showError, updateStatusMessage, hstore]
  · rw [hrun]
    simp [showError, updateStatusMessage, herr]

/-- Witness for C11: without a connection a transaction signed on insertion
stays in the store with status SIGNED, and the error is shown. -/
theorem createTx_failed_send_keeps_status_witness :
    (createTx offlineWindow (some "savings") [.accepted signAndSendAttempt]).accountModel.txs
      = [{ coin := sampleTx, status := TxStatus.SIGNED }] :=
  (createTx_failed_send_keeps_status offlineWindow "savings" signAndSendAttempt [] sampleTx
    { coin := sampleTx, status := TxStatus.SIGNED } rfl rfl rfl (Or.inr (Or.inl rfl))).1

/-! ### Resync on completion -/

/-- Counterexample for C14: with a wallet store open, handling `doneResync`
issues no resync request. -/
theorem doneResync_open_wallet_no_request :
    earlyWallet.accountModel.isOpen = true
    ∧ (doneResync earlyWallet).networkSync.resyncCalls = []
    ∧ (doneResync earlyWallet).networkSync.resyncHeightCalls = [] := by
  decide

/-- C14, amended: handling `doneResync` issues no request to the network
client, whether a wallet store is open or not; it reports the text
"Finished resynch" and changes nothing else. -/
theorem doneResync_issues_no_request (w : MainWindow) :
    (doneResync w).networkSync = w.networkSync
    ∧ (doneResync w).networkSync.resyncCalls = w.networkSync.resyncCalls
    ∧ doneResync w = { w with statusMessages := w.statusMessages ++ ["Finished resynch"] } := by
  refine ⟨rfl, rfl, rfl⟩

/-! ### Best-height updates -/

/-- C16: handling `updateBestHeight(h)` sets the best height to `h`, whatever
the previous value, and leaves the sync height and the connected flag as
they were; handling the same update a second time changes nothing. -/
theorem onUpdateBestHeight_unconditional_idempotent (w : MainWindow) (h : Int) :
    (onUpdateBestHeight w h).bestHeight = h
    ∧ (onUpdateBestHeight w h).syncHeight = w.syncHeight
    ∧ (onUpdateBestHeight w h).connected = w.connected
    ∧ onUpdateBestHeight (onUpdateBestHeight w h) h = onUpdateBestHeight w h := by
  refine ⟨?_, ?_, ?_, onUpdateBestHeight_idem w h⟩
  · unfold onUpdateBestHeight
    rw [recomputeNetworkState_bestHeight]
    rfl
  · unfold onUpdateBestHeight
    rw [recomputeNetworkState_syncHeight]
    rfl
  · unfold onUpdateBestHeight
    rw [recomputeNetworkState_connected]
    rfl

/-- C17: after `addBestChain(header)` the best height is the height of the
header and the session state is the rule of section 4.1 applied to the
connected flag, the account count, the sync height and the new best height;
the best height reported by the network client plays no part. -/
theorem addBestChain_sets_header_height (w : MainWindow) (header : chain_header_t) :
    (addBestChain w header).bestHeight = header.height
    ∧ (addBestChain w header).networkState
        = recompute w.connected w.accountModel.numAccounts w.syncHeight header.height
    ∧ ∀ n : Int,
        (addBestChain { w with networkSync := { w.networkSync with bestHeight := n } }
            header).bestHeight = header.height
        ∧ (addBestChain { w with networkSync := { w.networkSync with bestHeight := n } }
            header).networkState = (addBestChain w header).networkState := by
  have hns : ∀ v : MainWindow, (addBestChain v header).networkState
      = recompute v.connected v.accountModel.numAccounts v.syncHeight header.height := by
    intro v
    unfold addBestChain emitUpdateBestHeight onUpdateBestHeight
    rw [recomputeNetworkState_networkState]
    rfl
  refine ⟨emitUpdateBestHeight_bestHeight w header.height, hns w, fun n => ⟨?_, ?_⟩⟩
  · exact emitUpdateBestHeight_bestHeight _ header.height
  · rw [hns, hns]

/-! ### Network lifecycle -/

/-- C12, at the initial window: after the handler `networkStarted` the
window is connected while the stored session state is still NOT_CONNECTED,
where the rule of section 4.1 gives SYNCHED; after a best-height update has
made the state SYNCHED, the handlers `networkError` and `networkTimeout`
leave it SYNCHED while the window is no longer connected, where the rule
gives NOT_CONNECTED.  The handler `networkStopped` does recompute. -/
theorem networkStarted_leaves_state_stale :
    (networkStarted initialWindow).connected = true
    ∧ (networkStarted initialWindow).networkState = NETWORK_STATE_NOT_CONNECTED
    ∧ recompute (networkStarted initialWindow).connected
        (networkStarted initialWindow).accountModel.numAccounts
        (networkStarted initialWindow).syncHeight
        (networkStarted initialWindow).bestHeight = NETWORK_STATE_SYNCHED
    ∧ (onUpdateBestHeight (networkStarted initialWindow) 10).networkState
        = NETWORK_STATE_SYNCHED
    ∧ (networkError (onUpdateBestHeight (networkStarted initialWindow) 10) "reset").connected
        = false
    ∧ (networkError (onUpdateBestHeight (networkStarted initialWindow) 10)
        "reset").networkState = NETWORK_STATE_SYNCHED
    ∧ (networkTimeout (onUpdateBestHeight (networkStarted initialWindow) 10)).networkState
        = NETWORK_STATE_SYNCHED
    ∧ (networkStopped (onUpdateBestHeight (networkStarted initialWindow) 10)).networkState
        = NETWORK_STATE_NOT_CONNECTED := by
  decide

/-- C13, from the initial window: a vault is opened while offline, the
connection is requested, and the network client reports that it has
started.  The stored session state is NOT_CONNECTED, and both `sendRawTx`
and `createTx` hand a transaction to `sendTx` in that state. -/
theorem sendTx_while_state_not_connected :
    startedWindow.connected = true
    ∧ startedWindow.networkState = NETWORK_STATE_NOT_CONNECTED
    ∧ (sendRawTx startedWindow (.accepted ⟨.ok sampleTx, .ok ()⟩)).networkSync.sendTxCalls
        = [sampleTx]
    ∧ (sendRawTx startedWindow (.accepted ⟨.ok sampleTx, .ok ()⟩)).networkState
        = NETWORK_STATE_NOT_CONNECTED
    ∧ (createTx startedWindow (some "savings")
        [.accepted signAndSendAttempt]).networkSync.sendTxCalls = [sampleTx]
    ∧ (createTx startedWindow (some "savings")
        [.accepted signAndSendAttempt]).networkState = NETWORK_STATE_NOT_CONNECTED := by
  decide

/-- C15, at a connected window in state SYNCHED: after `networkTimeout` the
stored session state is still SYNCHED, after `networkStopped` it is
NOT_CONNECTED; the connected flag and the heights agree. -/
theorem networkTimeout_differs_from_networkStopped :
    sendWindow.networkState = NETWORK_STATE_SYNCHED
    ∧ (networkTimeout sendWindow).networkState = NETWORK_STATE_SYNCHED
    ∧ (networkStopped sendWindow).networkState = NETWORK_STATE_NOT_CONNECTED
    ∧ (networkTimeout sendWindow).connected = (networkStopped sendWindow).connected
    ∧ (networkTimeout sendWindow).syncHeight = (networkStopped sendWindow).syncHeight
    ∧ (networkTimeout sendWindow).bestHeight = (networkStopped sendWindow).bestHeight := by
  decide

/-! ### Frames of the reporting and resync functions -/

/-- The fields that the chain tracker and the session state machine own. -/
theorem showError_tracked (w : MainWindow) (e : String) :
    (showError w e).syncHeight = w.syncHeight ∧ (showError w e).bestHeight = w.bestHeight
    ∧ (showError w e).connected = w.connected
    ∧ (showError w e).networkState = w.networkState
    ∧ (showError w e).accountModel = w.accountModel
    ∧ (showError w e).networkSync = w.networkSync :=
  ⟨rfl, rfl, rfl, rfl, rfl, rfl⟩

theorem resync_tracked (w : MainWindow) (r : Except String Unit) :
    (resync w r).window.syncHeight = w.syncHeight
    ∧ (resync w r).window.bestHeight = w.bestHeight
    ∧ (resync w r).window.connected = w.connected
    ∧ (resync w r).window.networkState = w.networkState
    ∧ (resync w r).window.accountModel = w.accountModel
    ∧ (resync w r).window.networkSync.bloomFilters = w.networkSync.bloomFilters := by
  unfold resync
  cases r <;> exact ⟨rfl, rfl, rfl, rfl, rfl, rfl⟩

theorem resyncBlocks_tracked (w : MainWindow) (d : DialogResult ResyncBlocksAttempt) :
    (resyncBlocks w d).syncHeight = w.syncHeight
    ∧ (resyncBlocks w d).bestHeight = w.bestHeight
    ∧ (resyncBlocks w d).connected = w.connected
    ∧ (resyncBlocks w d).networkState = w.networkState := by
  unfold resyncBlocks
  cases d with
  | rejected => cases hc : w.connected <;> simp [hc, showError, updateStatusMessage]
  | accepted a =>
    cases hr : a.networkResync <;> cases hc : w.connected <;>
      simp [hr, hc, showError, updateStatusMessage]

theorem startNetworkSync_frame (w : MainWindow) (r : Except String Unit) :
    (startNetworkSync w r).syncHeight = w.syncHeight
    ∧ (startNetworkSync w r).bestHeight = w.bestHeight
    ∧ (startNetworkSync w r).accountModel = w.accountModel
    ∧ (startNetworkSync w r).networkSync.bloomFilters = w.networkSync.bloomFilters := by
  unfold startNetworkSync
  cases r with
  | error e => exact ⟨rfl, rfl, rfl, rfl⟩
  | ok u =>
    simp only []
    refine ⟨?_, ?_, ?_, ?_⟩
    · rw [recomputeNetworkState_syncHeight]; rfl
    · rw [recomputeNetworkState_bestHeight]; rfl
    · rw [recomputeNetworkState_accountModel]; rfl
    · rw [recomputeNetworkState_networkSync]; rfl

theorem promptResync_frame (w : MainWindow) (p : ResyncPrompt) :
    (promptResync w p).window.syncHeight = w.syncHeight
    ∧ (promptResync w p).window.bestHeight = w.bestHeight
    ∧ (promptResync w p).window.accountModel = w.accountModel
    ∧ (promptResync w p).window.networkSync.bloomFilters = w.networkSync.bloomFilters := by
  unfold promptResync
  cases hc : w.connected
  · cases hn : p.connectNow
    · simp
    · simp only [Bool.not_false, if_true]
      exact startNetworkSync_frame w p.networkStart
  · simp only [Bool.not_true, Bool.false_eq_true, if_false]
    have h := resync_tracked w p.networkResync
    exact ⟨h.1, h.2.1, h.2.2.2.2.1, h.2.2.2.2.2⟩

/-- C19: `resync()` and `resyncBlocks()` leave the sync height, the best
height, the connected flag and the session state unchanged, whether the
call on the network client returns or throws, and whatever the operator
answers in the resync dialog. -/
theorem resync_preserves_chain_state (w : MainWindow) (netResult : Except String Unit)
    (dialog : DialogResult ResyncBlocksAttempt) :
    ((resync w netResult).window.syncHeight = w.syncHeight
      ∧ (resync w netResult).window.bestHeight = w.bestHeight
      ∧ (resync w netResult).window.connected = w.connected
      ∧ (resync w netResult).window.networkState = w.networkState)
    ∧ ((resyncBlocks w dialog).syncHeight = w.syncHeight
      ∧ (resyncBlocks w dialog).bestHeight = w.bestHeight
      ∧ (resyncBlocks w dialog).connected = w.connected
      ∧ (resyncBlocks w dialog).networkState = w.networkState) := by
  have h := resync_tracked w netResult
  exact ⟨⟨h.1, h.2.1, h.2.2.1, h.2.2.2.1⟩, resyncBlocks_tracked w dialog⟩

/-! ### The height pair outside the chain events -/

theorem heightPair_recomputeNetworkState (w : MainWindow) :
    heightPair (recomputeNetworkState w) = heightPair w := by
  unfold heightPair
  rw [recomputeNetworkState_syncHeight, recomputeNetworkState_bestHeight]

theorem heightPair_importAccountName (names : List NamePrompt) (w : MainWindow) :
    heightPair (importAccountName w names).1 = heightPair w
    ∧ (importAccountName w names).1.networkSync = w.networkSync
    ∧ (importAccountName w names).1.accountModel = w.accountModel := by
  induction names generalizing w with
  | nil => exact ⟨rfl, rfl, rfl⟩
  | cons n rest ih =>
    cases n with
    | cancelled => exact ⟨rfl, rfl, rfl⟩
    | entered name accountExists =>
      unfold importAccountName
      split
      · exact ih _
      · split
        · exact ih _
        · exact ⟨rfl, rfl, rfl⟩

theorem newAccount_success (w : MainWindow) (m : AccountModel) (r : Except String Unit) :
    (newAccount w (.ok (.accepted ⟨.ok m, r⟩))).networkSync.bloomFilters
      = w.networkSync.bloomFilters ++ [m.getBloomFilter 0.0001 0 0]
    ∧ (newAccount w (.ok (.accepted ⟨.ok m, r⟩))).accountModel = m := by
  simp only [newAccount]
  have h := resync_tracked (installBloomFilter { w with accountModel := m }) r
  rcases hres : resync (installBloomFilter { w with accountModel := m }) r with ⟨w2, thrown⟩
  rw [hres] at h
  split
  · cases thrown with
    | none => exact ⟨h.2.2.2.2.2, h.2.2.2.2.1⟩
    | some e => exact ⟨h.2.2.2.2.2, h.2.2.2.2.1⟩
  · exact ⟨rfl, rfl⟩

theorem importAccount_success (w w1 : MainWindow) (m : AccountModel) (p : ResyncPrompt)
    (fileName fileDialog name : String) (names : List NamePrompt)
    (hfile : (if fileName.isEmpty then fileDialog else fileName).isEmpty = false)
    (hname : importAccountName w names = (w1, some name)) :
    (importAccount w fileName fileDialog names ⟨.ok m, p⟩).networkSync.bloomFilters
      = w.networkSync.bloomFilters ++ [m.getBloomFilter 0.0001 0 0]
    ∧ (importAccount w fileName fileDialog names ⟨.ok m, p⟩).accountModel = m := by
  have hn := (heightPair_importAccountName names w).2.1
  rw [hname] at hn
  unfold importAccount
  simp only [hfile, hname]
  have hp := promptResync_frame
    (updateStatusMessage
      (installBloomFilter { updateStatusMessage w1 "Importing account..." with
        accountModel := m }) ("Imported account " ++ name)) p
  rcases hres : promptResync
    (updateStatusMessage
      (installBloomFilter { updateStatusMessage w1 "Importing account..." with
        accountModel := m }) ("Imported account " ++ name)) p with ⟨w5, thrown⟩
  rw [hres] at hp
  have hb : w5.networkSync.bloomFilters
      = w.networkSync.bloomFilters ++ [m.getBloomFilter 0.0001 0 0] := by
    rw [hp.2.2.2]
    show w1.networkSync.bloomFilters ++ _ = _
    rw [hn]
  cases thrown with
  | none => exact ⟨hb, hp.2.2.1⟩
  | some e => exact ⟨hb, hp.2.2.1⟩

theorem importAccount_failure (w w1 : MainWindow) (e : String) (p : ResyncPrompt)
    (fileName fileDialog name : String) (names : List NamePrompt)
    (hfile : (if fileName.isEmpty then fileDialog else fileName).isEmpty = false)
    (hname : importAccountName w names = (w1, some name)) :
    (importAccount w fileName fileDialog names ⟨.error e, p⟩).networkSync.bloomFilters
      = w.networkSync.bloomFilters := by
  have hn := (heightPair_importAccountName names w).2.1
  rw [hname] at hn
  unfold importAccount
  simp only [hfile, hname]
  show w1.networkSync.bloomFilters = _
  rw [hn]

theorem openVault_success (w : MainWindow) (m : AccountModel) (p : ResyncPrompt)
    (fileName fileDialog : String)
    (hfile : (if fileName.isEmpty then fileDialog else fileName).isEmpty = false) :
    (openVault w fileName fileDialog (.ok m) p).networkSync.bloomFilters
      = w.networkSync.bloomFilters ++ [m.getBloomFilter 0.0001 0 0]
    ∧ (openVault w fileName fileDialog (.ok m) p).accountModel = m := by
  unfold openVault
  simp only [hfile, loadVault]
  have hp := promptResync_frame
    (updateStatusMessage (installBloomFilter { w with accountModel := m })
      ("Opened " ++ (if fileName.isEmpty = true then fileDialog else fileName))) p
  rcases hres : promptResync
    (updateStatusMessage (installBloomFilter { w with accountModel := m })
      ("Opened " ++ (if fileName.isEmpty = true then fileDialog else fileName))) p
    with ⟨w3, thrown⟩
  rw [hres] at hp
  cases thrown with
  | none => exact ⟨hp.2.2.2, hp.2.2.1⟩
  | some e => exact ⟨hp.2.2.2, hp.2.2.1⟩

theorem openVault_failure (w : MainWindow) (e : String) (p : ResyncPrompt)
    (fileName fileDialog : String)
    (hfile : (if fileName.isEmpty then fileDialog else fileName).isEmpty = false) :
    (openVault w fileName fileDialog (.error e) p).networkSync.bloomFilters
      = w.networkSync.bloomFilters := by
  unfold openVault
  simp only [hfile, loadVault]
  rfl

/-- C18: each of `newAccount`, `importAccount`, `deleteAccount` and
`openVault`, when the change of the wallet store succeeds, makes exactly one
call of `setBloomFilter`, with the filter computed from the store as it is
after the change and the parameters 0.0001, 0, 0, and leaves that store in
place; when the change throws, no filter is installed.  For the import and
the opening a file name is given and, for the import, a name is accepted. -/
theorem account_mutation_installs_one_filter (w w1 : MainWindow) (m : AccountModel)
    (e : String) (r : Except String Unit) (p : ResyncPrompt)
    (account fileName fileDialog name : String) (names : List NamePrompt)
    (hfile : (if fileName.isEmpty then fileDialog else fileName).isEmpty = false)
    (hname : importAccountName w names = (w1, some name)) :
    ((newAccount w (.ok (.accepted ⟨.ok m, r⟩))).networkSync.bloomFilters
        = w.networkSync.bloomFilters ++ [m.getBloomFilter 0.0001 0 0]
      ∧ (newAccount w (.ok (.accepted ⟨.ok m, r⟩))).accountModel = m
      ∧ (newAccount w (.ok (.accepted ⟨.error e, r⟩))).networkSync.bloomFilters
        = w.networkSync.bloomFilters)
    ∧ ((importAccount w fileName fileDialog names ⟨.ok m, p⟩).networkSync.bloomFilters
        = w.networkSync.bloomFilters ++ [m.getBloomFilter 0.0001 0 0]
      ∧ (importAccount w fileName fileDialog names ⟨.ok m, p⟩).accountModel = m
      ∧ (importAccount w fileName fileDialog names ⟨.error e, p⟩).networkSync.bloomFilters
        = w.networkSync.bloomFilters)
    ∧ ((deleteAccount w (some account) true (.ok m)).networkSync.bloomFilters
        = w.networkSync.bloomFilters ++ [m.getBloomFilter 0.0001 0 0]
      ∧ (deleteAccount w (some account) true (.ok m)).accountModel = m
      ∧ (deleteAccount w (some account) true (.error e)).networkSync.bloomFilters
        = w.networkSync.bloomFilters)
    ∧ ((openVault w fileName fileDialog (.ok m) p).networkSync.bloomFilters
        = w.networkSync.bloomFilters ++ [m.getBloomFilter 0.0001 0 0]
      ∧ (openVault w fileName fileDialog (.ok m) p).accountModel = m
      ∧ (openVault w fileName fileDialog (.error e) p).networkSync.bloomFilters
        = w.networkSync.bloomFilters) := by
  refine ⟨⟨(newAccount_success w m r).1, (newAccount_success w m r).2, rfl⟩,
    ⟨(importAccount_success w w1 m p fileName fileDialog name names hfile hname).1,
     (importAccount_success w w1 m p fileName fileDialog name names hfile hname).2,
     importAccount_failure w w1 e p fileName fileDialog name names hfile hname⟩,
    ⟨rfl, rfl, rfl⟩,
    ⟨(openVault_success w m p fileName fileDialog hfile).1,
     (openVault_success w m p fileName fileDialog hfile).2,
     openVault_failure w e p fileName fileDialog hfile⟩⟩

/-- Witness for C18: importing the file `/a.acct` under the name `savings`
into the initial window, after one empty name, installs one filter. -/
theorem account_mutation_installs_one_filter_witness :
    (importAccount initialWindow "/a.acct" "" [.entered "" false, .entered "savings" false]
        ⟨.ok sampleStore, declineConnect⟩).networkSync.bloomFilters
      = [] ++ [sampleStore.getBloomFilter 0.0001 0 0] :=
  (account_mutation_installs_one_filter initialWindow
    (showError initialWindow "Name cannot be empty.") sampleStore "disk full" (.ok ())
    declineConnect "savings" "/a.acct" "" "savings"
    [.entered "" false, .entered "savings" false] (by decide) (by decide)).2.1.1

/-! ### Payment URLs -/

/-- C27, at the schemes `http`, `bitcoin`, `bitcoin:` and `BITCOIN:`: for
`http` (and for `bitcoin`) `processUrl` runs `createTx`, which here stores
and sends a transaction and shows no error, or shows the error of the
payment request when its construction throws; for `bitcoin:` in either case
it shows "Unhandled URL protocol" and does not run `createTx`. -/
theorem processUrl_dispatch_inverted :
    processUrl sendWindow "http" (.ok ()) (some "savings") [.accepted signAndSendAttempt]
        = createTx sendWindow (some "savings") [.accepted signAndSendAttempt]
    ∧ (processUrl sendWindow "http" (.ok ()) (some "savings")
        [.accepted signAndSendAttempt]).errors = []
    ∧ (processUrl sendWindow "http" (.ok ()) (some "savings")
        [.accepted signAndSendAttempt]).networkSync.sendTxCalls = [sampleTx]
    ∧ processUrl sendWindow "http" (.error "bad request") (some "savings")
        [.accepted signAndSendAttempt] = showError sendWindow "bad request"
    ∧ processUrl sendWindow "bitcoin" (.ok ()) (some "savings") [.accepted signAndSendAttempt]
        = createTx sendWindow (some "savings") [.accepted signAndSendAttempt]
    ∧ processUrl sendWindow "bitcoin:" (.ok ()) (some "savings")
        [.accepted signAndSendAttempt] = showError sendWindow "Unhandled URL protocol"
    ∧ processUrl sendWindow "BITCOIN:" (.ok ()) (some "savings")
        [.accepted signAndSendAttempt] = showError sendWindow "Unhandled URL protocol"
    ∧ (processUrl sendWindow "bitcoin:" (.ok ()) (some "savings")
        [.accepted signAndSendAttempt]).accountModel.txs = [] := by
  decide

theorem compareChars_eq_zero_iff (a b : List Char) :
    compareChars a b = 0 ↔ a.map Char.toLower = b.map Char.toLower := by
  induction a generalizing b with
  | nil =>
    cases b with
    | nil => simp [compareChars]
    | cons y ys => simp [compareChars]
  | cons x xs ih =>
    cases b with
    | nil => simp [compareChars]
    | cons y ys =>
      unfold compareChars
      by_cases h : x.toLower = y.toLower
      · simp [h, ih]
      · simp only [h, if_false, List.map_cons, List.cons.injEq, false_and, iff_false]
        intro hz
        apply h
        have hn : x.toLower.toNat = y.toLower.toNat := by omega
        exact Char.ext (UInt32.ext (by simpa [Char.toNat, UInt32.toNat] using hn))

/-- The two branches of `processUrl`: a scheme equal to `bitcoin:` up to case
gives the error; any other scheme goes on to the payment request and
`createTx`. -/
theorem processUrl_branches (w : MainWindow) (scheme : String)
    (selected : Option String) (dialog : List (DialogResult CreateTxAttempt)) :
    (scheme.data.map Char.toLower = "bitcoin:".data.map Char.toLower →
      processUrl w scheme (.ok ()) selected dialog = showError w "Unhandled URL protocol")
    ∧ (scheme.data.map Char.toLower ≠ "bitcoin:".data.map Char.toLower →
      processUrl w scheme (.ok ()) selected dialog = createTx w selected dialog) := by
  constructor
  · intro h
    have hz : compareCaseInsensitive scheme "bitcoin:" = 0 :=
      (compareChars_eq_zero_iff _ _).mpr h
    simp [processUrl, hz]
  · intro h
    have hz : compareCaseInsensitive scheme "bitcoin:" ≠ 0 :=
      fun hc => h ((compareChars_eq_zero_iff _ _).mp hc)
    simp [processUrl, hz]

/-! ### Done-initial-sync -/

theorem emitUpdateBestHeight_frame (w : MainWindow) (h : Int) :
    ∃ ns ind, emitUpdateBestHeight w h
      = { w with bestHeight := h,
                 bestHeightSignals := w.bestHeightSignals ++ [h],
                 syncLabel := toString w.syncHeight ++ "/" ++ toString h,
                 networkState := ns, stateIndicator := ind } := by
  unfold emitUpdateBestHeight onUpdateBestHeight
  obtain ⟨ns, ind, hf⟩ := recomputeNetworkState_frame
    (updateSyncLabel { { w with bestHeightSignals := w.bestHeightSignals ++ [h] } with
      bestHeight := h })
  exact ⟨ns, ind, hf.trans rfl⟩

/-- C22: `doneSync` sets the best height to the one the network client
reports and then calls `resync()` exactly when a wallet store is open (one
request, none otherwise).  When that call throws, the text of the exception
is emitted as a status message after the two regular ones, no error box is
shown, and the best height keeps the refreshed value. -/
theorem doneSync_refreshes_then_resyncs (w : MainWindow) (netResync : Except String Unit)
    (e : String) :
    (doneSync w netResync).bestHeight = w.networkSync.bestHeight
    ∧ (doneSync w netResync).networkSync.resyncCalls
        = w.networkSync.resyncCalls ++
          (if w.accountModel.isOpen then
            [⟨w.accountModel.locatorHashes,
              wrapUInt32 ((w.accountModel.firstAccountTimeCreated : Int) - 7200)⟩]
           else [])
    ∧ (doneSync w (.error e)).statusMessages
        = w.statusMessages ++
          (if w.accountModel.isOpen then
            ["Finished headers sync", "Resynchronizing vault", e]
           else ["Finished headers sync"])
    ∧ (doneSync w (.error e)).errors = w.errors
    ∧ (doneSync w (.error e)).bestHeight = w.networkSync.bestHeight := by
  obtain ⟨ns, ind, hf⟩ := emitUpdateBestHeight_frame w w.networkSync.bestHeight
  have key : ∀ r : Except String Unit,
      (doneSync w r).bestHeight = w.networkSync.bestHeight
      ∧ (doneSync w r).networkSync.resyncCalls
          = w.networkSync.resyncCalls ++
            (if w.accountModel.isOpen then
              [⟨w.accountModel.locatorHashes,
                wrapUInt32 ((w.accountModel.firstAccountTimeCreated : Int) - 7200)⟩]
             else []) := by
    intro r
    unfold doneSync
    rw [hf]
    cases ho : w.accountModel.isOpen <;> cases r <;>
      simp [ho, emitStatus, updateStatusMessage, resync]
  refine ⟨(key netResync).1, (key netResync).2, ?_, ?_, (key (.error e)).1⟩
  · unfold doneSync
    rw [hf]
    cases ho : w.accountModel.isOpen <;> simp [ho, emitStatus, updateStatusMessage, resync]
  · unfold doneSync
    rw [hf]
    cases ho : w.accountModel.isOpen <;> simp [ho, emitStatus, updateStatusMessage, resync]

/-! ### Resync start time and manual resync -/

/-- C23: for every creation time `T` below 7200 the start time that
`resync()` passes to the network client is `T + 2^32 - 7200`, which is
greater than `T`: the subtraction wraps around. -/
theorem resync_start_time_wraps (w : MainWindow) (netResult : Except String Unit)
    (h : w.accountModel.firstAccountTimeCreated < 7200) :
    (resync w netResult).window.networkSync.resyncCalls
        = w.networkSync.resyncCalls ++
          [⟨w.accountModel.locatorHashes,
            w.accountModel.firstAccountTimeCreated + 4294960096⟩]
    ∧ w.accountModel.firstAccountTimeCreated
        < w.accountModel.firstAccountTimeCreated + 4294960096
    ∧ ¬ (w.accountModel.firstAccountTimeCreated + 4294960096
          ≤ w.accountModel.firstAccountTimeCreated) := by
  refine ⟨?_, by omega, by omega⟩
  unfold resync updateStatusMessage
  cases netResult <;> simp [wrapUInt32_sub_of_lt _ h]

/-- Witness for C23: a wallet whose earliest creation time is zero; the
start time sent is 4294960096. -/
theorem resync_start_time_wraps_witness :
    (resync zeroTimeWallet (.ok ())).window.networkSync.resyncCalls
      = [] ++ [⟨[[9]], 0 + 4294960096⟩] :=
  (resync_start_time_wraps zeroTimeWallet (.ok ()) (by decide)).1

/-- C24, at a window that is not connected and a resync dialog accepted with
height 5: `resyncBlocks` shows "Must be connected to resync." and then goes
on: the stored resync height becomes 5 and the request `resync(5)` is made. -/
theorem resyncBlocks_offline_still_requests :
    offlineWindow.connected = false
    ∧ offlineWindow.resyncHeight = 0
    ∧ (resyncBlocks offlineWindow (.accepted ⟨5, .ok ()⟩)).errors
        = ["Must be connected to resync."]
    ∧ (resyncBlocks offlineWindow (.accepted ⟨5, .ok ()⟩)).networkSync.resyncHeightCalls = [5]
    ∧ (resyncBlocks offlineWindow (.accepted ⟨5, .ok ()⟩)).resyncHeight = 5 := by
  decide

/-! ### Reorg-remove below the network height -/

/-- C26: when the best height reported by the network client exceeds the
tracked best height (and their difference is a value of `int`),
`removeBestChain` returns the window unchanged: no status message, no
best-height signal, and the same best height, sync height, connected flag
and session state. -/
theorem removeBestChain_noop_when_behind (w : MainWindow) (header : chain_header_t)
    (hlt : w.bestHeight < w.networkSync.bestHeight)
    (hfit : -2147483648 ≤ w.bestHeight - w.networkSync.bestHeight) :
    removeBestChain w header = w
    ∧ (removeBestChain w header).statusMessages = w.statusMessages
    ∧ (removeBestChain w header).bestHeightSignals = w.bestHeightSignals
    ∧ (removeBestChain w header).bestHeight = w.bestHeight
    ∧ (removeBestChain w header).syncHeight = w.syncHeight
    ∧ (removeBestChain w header).connected = w.connected
    ∧ (removeBestChain w header).networkState = w.networkState := by
  have h1 : wrapInt32 (w.bestHeight - w.networkSync.bestHeight)
      = w.bestHeight - w.networkSync.bestHeight :=
    wrapInt32_eq_self _ hfit (by omega)
  have hrun : removeBestChain w header = w := by
    unfold removeBestChain
    simp only [h1]
    have hneg : ¬ (w.bestHeight - w.networkSync.bestHeight ≥ 0) := by omega
    simp [hneg]
  rw [hrun]
  exact ⟨rfl, rfl, rfl, rfl, rfl, rfl, rfl⟩

/-- Witness for C26: tracked best height 97, network best height 100. -/
theorem removeBestChain_noop_when_behind_witness :
    removeBestChain behindWindow ⟨98, [171]⟩ = behindWindow :=
  (removeBestChain_noop_when_behind behindWindow ⟨98, [171]⟩ (by decide) (by decide)).1

/-! ### End-to-end session scenario -/

theorem emitUpdateSyncHeight_frame (w : MainWindow) (h : Int) :
    ∃ ns ind, emitUpdateSyncHeight w h
      = { w with syncHeight := h,
                 syncHeightSignals := w.syncHeightSignals ++ [h],
                 syncLabel := toString h ++ "/" ++ toString w.bestHeight,
                 networkState := ns, stateIndicator := ind } := by
  unfold emitUpdateSyncHeight onUpdateSyncHeight
  obtain ⟨ns, ind, hf⟩ := recomputeNetworkState_frame
    (updateSyncLabel { { w with syncHeightSignals := w.syncHeightSignals ++ [h] } with
      syncHeight := h })
  exact ⟨ns, ind, hf.trans rfl⟩

theorem emitUpdateSyncHeight_networkState (w : MainWindow) (h : Int) :
    (emitUpdateSyncHeight w h).networkState
      = recompute w.connected w.accountModel.numAccounts h w.bestHeight := by
  unfold emitUpdateSyncHeight onUpdateSyncHeight
  rw [recomputeNetworkState_networkState]
  rfl

/-- A new block keeps the session state equal to the rule of section 4.1 and
leaves the connected flag, the wallet store and the best height alone. -/
theorem newBlock_keeps_derived (w : MainWindow) (hash : bytes_t) (h : Int)
    (hd : w.networkState
      = recompute w.connected w.accountModel.numAccounts w.syncHeight w.bestHeight) :
    (newBlock w hash h).networkState
        = recompute (newBlock w hash h).connected (newBlock w hash h).accountModel.numAccounts
            (newBlock w hash h).syncHeight (newBlock w hash h).bestHeight
    ∧ (newBlock w hash h).connected = w.connected
    ∧ (newBlock w hash h).accountModel = w.accountModel
    ∧ (newBlock w hash h).bestHeight = w.bestHeight := by
  unfold newBlock emitStatus updateStatusMessage
  by_cases hgt : h > w.syncHeight
  · rw [if_pos hgt]
    have hns := emitUpdateSyncHeight_networkState w h
    obtain ⟨ns, ind, hf⟩ := emitUpdateSyncHeight_frame w h
    rw [hf] at hns ⊢
    exact ⟨hns, rfl, rfl, rfl⟩
  · rw [if_neg hgt]
    exact ⟨hd, rfl, rfl, rfl⟩

theorem newBlocks_keep_derived (blocks : List (bytes_t × Int)) (w : MainWindow)
    (hd : w.networkState
      = recompute w.connected w.accountModel.numAccounts w.syncHeight w.bestHeight) :
    (deliverSyncHeightEvents w (blocks.map fun b => SyncHeightEvent.block b.1 b.2)).networkState
        = recompute w.connected w.accountModel.numAccounts
            (deliverSyncHeightEvents w
              (blocks.map fun b => SyncHeightEvent.block b.1 b.2)).syncHeight w.bestHeight := by
  induction blocks generalizing w with
  | nil => exact hd
  | cons b rest ih =>
    have step := newBlock_keeps_derived w b.1 b.2 hd
    have tail := ih (newBlock w b.1 b.2) step.1
    rw [step.2.1, step.2.2.1, step.2.2.2] at tail
    unfold deliverSyncHeightEvents at tail ⊢
    simp only [List.map_cons, List.foldl_cons, deliverSyncHeightEvent]
    exact tail

theorem newBlocks_syncHeight_bounds (blocks : List (bytes_t × Int)) (w : MainWindow)
    (bound : Int) (hw : w.syncHeight ≤ bound) (hle : ∀ b ∈ blocks, b.2 ≤ bound) :
    (deliverSyncHeightEvents w
        (blocks.map fun b => SyncHeightEvent.block b.1 b.2)).syncHeight ≤ bound
    ∧ ∀ b ∈ blocks, b.2 ≤ (deliverSyncHeightEvents w
        (blocks.map fun b => SyncHeightEvent.block b.1 b.2)).syncHeight := by
  induction blocks generalizing w with
  | nil => exact ⟨hw, fun b hb => absurd hb (List.not_mem_nil b)⟩
  | cons c rest ih =>
    have hstep : (newBlock w c.1 c.2).syncHeight = max w.syncHeight c.2 :=
      newBlock_syncHeight_eq w c.1 c.2
    have hc : c.2 ≤ bound := hle c (List.mem_cons_self c rest)
    have hw1 : (newBlock w c.1 c.2).syncHeight ≤ bound := by
      rw [hstep]
      exact max_le hw hc
    have tail := ih (newBlock w c.1 c.2) hw1
      (fun b hb => hle b (List.mem_cons_of_mem c hb))
    have mono := newBlocks_syncHeight_le rest (newBlock w c.1 c.2)
    unfold deliverSyncHeightEvents at tail mono ⊢
    simp only [List.map_cons, List.foldl_cons, deliverSyncHeightEvent]
    refine ⟨tail.1, ?_⟩
    intro b hb
    rcases List.mem_cons.mp hb with hbc | hbr
    · rw [hbc]
      have : c.2 ≤ (newBlock w c.1 c.2).syncHeight := by
        rw [hstep]
        exact le_max_right _ _
      exact le_trans this mono
    · exact tail.2 b hbr

/-- C21: from a connected window with exactly one account and sync height 0,
handling the best-height update 1000 leaves the session state SYNCHING;
after new-block notifications with heights up to 1000, one of them at
height 1000, the sync height is 1000 and the session state is SYNCHED. -/
theorem session_scenario (w : MainWindow) (blocks : List (bytes_t × Int))
    (hc : w.connected = true) (ha : w.accountModel.numAccounts = 1)
    (hs : w.syncHeight = 0)
    (hle : ∀ b ∈ blocks, b.2 ≤ 1000) (hmem : ∃ b ∈ blocks, b.2 = 1000) :
    (onUpdateBestHeight w 1000).networkState = NETWORK_STATE_SYNCHING
    ∧ (onUpdateBestHeight w 1000).syncHeight = 0
    ∧ (onUpdateBestHeight w 1000).bestHeight = 1000
    ∧ (deliverSyncHeightEvents (onUpdateBestHeight w 1000)
        (blocks.map fun b => SyncHeightEvent.block b.1 b.2)).syncHeight = 1000
    ∧ (deliverSyncHeightEvents (onUpdateBestHeight w 1000)
        (blocks.map fun b => SyncHeightEvent.block b.1 b.2)).bestHeight = 1000
    ∧ (deliverSyncHeightEvents (onUpdateBestHeight w 1000)
        (blocks.map fun b => SyncHeightEvent.block b.1 b.2)).networkState
        = NETWORK_STATE_SYNCHED := by
  have hns : (onUpdateBestHeight w 1000).networkState
      = recompute w.connected w.accountModel.numAccounts w.syncHeight 1000 := by
    unfold onUpdateBestHeight
    rw [recomputeNetworkState_networkState]
    rfl
  have hsync : (onUpdateBestHeight w 1000).syncHeight = w.syncHeight := by
    unfold onUpdateBestHeight
    rw [recomputeNetworkState_syncHeight]
    rfl
  have hbest : (onUpdateBestHeight w 1000).bestHeight = 1000 := by
    unfold onUpdateBestHeight
    rw [recomputeNetworkState_bestHeight]
    rfl
  have hconn : (onUpdateBestHeight w 1000).connected = w.connected := by
    unfold onUpdateBestHeight
    rw [recomputeNetworkState_connected]
    rfl
  have hacc : (onUpdateBestHeight w 1000).accountModel = w.accountModel := by
    unfold onUpdateBestHeight
    rw [recomputeNetworkState_accountModel]
    rfl
  have hd : (onUpdateBestHeight w 1000).networkState
      = recompute (onUpdateBestHeight w 1000).connected
          (onUpdateBestHeight w 1000).accountModel.numAccounts
          (onUpdateBestHeight w 1000).syncHeight (onUpdateBestHeight w 1000).bestHeight := by
    rw [hns, hsync, hbest, hconn, hacc]
  have hfin := newBlocks_keep_derived blocks (onUpdateBestHeight w 1000) hd
  have hb := newBlocks_syncHeight_bounds blocks (onUpdateBestHeight w 1000) 1000
    (by rw [hsync, hs]; decide) hle
  have hfinal : (deliverSyncHeightEvents (onUpdateBestHeight w 1000)
      (blocks.map fun b => SyncHeightEvent.block b.1 b.2)).syncHeight = 1000 := by
    obtain ⟨b, hbm, hb1000⟩ := hmem
    have := hb.2 b hbm
    rw [hb1000] at this
    exact le_antisymm hb.1 this
  refine ⟨?_, by rw [hsync, hs], hbest, hfinal, ?_, ?_⟩
  · rw [hns, hc, ha, hs]
    decide
  · have hbh : ∀ (bl : List (bytes_t × Int)) (v : MainWindow),
        (deliverSyncHeightEvents v
          (bl.map fun b => SyncHeightEvent.block b.1 b.2)).bestHeight = v.bestHeight := by
      intro bl
      induction bl with
      | nil => intro v; rfl
      | cons c rest ih =>
        intro v
        have tail := ih (newBlock v c.1 c.2)
        unfold deliverSyncHeightEvents at tail ⊢
        simp only [List.map_cons, List.foldl_cons, deliverSyncHeightEvent]
        rw [tail]
        by_cases hgt : c.2 > v.syncHeight
        · unfold newBlock emitStatus updateStatusMessage
          simp only [hgt, if_true]
          obtain ⟨ns, ind, hf⟩ := emitUpdateSyncHeight_frame v c.2
          rw [hf]
        · unfold newBlock emitStatus updateStatusMessage
          simp only [hgt, if_false]
    rw [hbh, hbest]
  · rw [hfin, hfinal, hconn, hacc, hbest, hc, ha]
    decide

/-- Witness for C21: two blocks, at heights 500 and 1000. -/
theorem session_scenario_witness :
    (deliverSyncHeightEvents (onUpdateBestHeight sendWindow 1000)
        ([(([1] : bytes_t), (500 : Int)), ([2], 1000)].map
          fun b => SyncHeightEvent.block b.1 b.2)).networkState = NETWORK_STATE_SYNCHED :=
  (session_scenario sendWindow [([1], 500), ([2], 1000)] rfl rfl rfl
    (by decide) (by decide)).2.2.2.2.2

/-! ### Insertions made by `createTx` -/

theorem addTx_after_stored_length (m : AccountModel) (tx : VaultTx) (s : TxStatus) :
    ((m.stored tx).addTx { tx with status := s }).txs.length = m.txs.length + 1 := by
  unfold AccountModel.addTx AccountModel.stored
  simp [List.any_append]

/-- One pass through the body of the loop: the store grows by at most one
transaction; when `saved` stays false the window is unchanged and an
exception is thrown. -/
theorem createTxAttempt_store (w : MainWindow) (a : CreateTxAttempt) :
    (createTxAttempt w a).1.accountModel.txs.length ≤ w.accountModel.txs.length + 1
    ∧ ((createTxAttempt w a).2.1 = false →
        (createTxAttempt w a).1 = w ∧ (createTxAttempt w a).2.2 ≠ none) := by
  unfold createTxAttempt
  simp only []
  cases hc : a.createTx with
  | error e => simp
  | ok coin =>
    cases hi : a.insertTx
        (decide (a.status = CreateTxStatus.SIGN_AND_SEND)
          || decide (a.status = CreateTxStatus.SIGN_AND_SAVE)) with
    | error e => simp
    | ok tx =>
      simp only []
      split
      · split
        · simp [AccountModel.stored]
        · split
          · simp [AccountModel.stored]
          · cases hsend : a.sendTx with
            | error e => simp [AccountModel.stored]
            | ok u =>
              cases hadd : a.addTx with
              | error e => simp [AccountModel.stored]
              | ok u2 =>
                simp only []
                refine ⟨?_, by simp⟩
                exact le_of_eq (addTx_after_stored_length w.accountModel tx TxStatus.RECEIVED)
      · simp [AccountModel.stored]

theorem createTxAttempt_saved_independent (w v : MainWindow) (a : CreateTxAttempt) :
    (createTxAttempt w a).2.1 = (createTxAttempt v a).2.1 := by
  unfold createTxAttempt
  simp only []
  cases hc : a.createTx with
  | error e => rfl
  | ok coin =>
    cases hi : a.insertTx
        (decide (a.status = CreateTxStatus.SIGN_AND_SEND)
          || decide (a.status = CreateTxStatus.SIGN_AND_SAVE)) with
    | error e => rfl
    | ok tx =>
      simp only []
      repeat' split
      all_goals rfl

theorem createTxLoop_store_length (dialog : List (DialogResult CreateTxAttempt))
    (w : MainWindow) :
    (createTxLoop w dialog).accountModel.txs.length ≤ w.accountModel.txs.length + 1 := by
  induction dialog generalizing w with
  | nil => exact Nat.le_succ _
  | cons d rest ih =>
    cases d with
    | rejected => exact Nat.le_succ _
    | accepted a =>
      have hatt := createTxAttempt_store w a
      unfold createTxLoop
      rcases hres : createTxAttempt w a with ⟨w1, saved, thrown⟩
      rw [hres] at hatt
      cases thrown with
      | none => exact hatt.1
      | some e =>
        cases saved with
        | true => exact hatt.1
        | false =>
          simp only [Bool.false_eq_true, if_false]
          have hw1 : w1 = w := (hatt.2 rfl).1
          have := ih (showError w1 e)
          rw [hw1] at this ⊢
          exact this

theorem createTxLoop_no_insertion (dialog : List (DialogResult CreateTxAttempt))
    (w : MainWindow)
    (hfail : ∀ d ∈ dialog, ∀ b, d = DialogResult.accepted b →
      ∀ v, (createTxAttempt v b).2.1 = false) :
    (createTxLoop w dialog).accountModel = w.accountModel := by
  induction dialog generalizing w with
  | nil => rfl
  | cons d rest ih =>
    cases d with
    | rejected => rfl
    | accepted a =>
      have hsaved := hfail (.accepted a) (List.mem_cons_self _ _) a rfl w
      have hatt := (createTxAttempt_store w a).2 hsaved
      unfold createTxLoop
      rcases hres : createTxAttempt w a with ⟨w1, saved, thrown⟩
      rw [hres] at hatt hsaved
      simp only at hatt hsaved
      cases thrown with
      | none => exact absurd rfl hatt.2
      | some e =>
        subst hsaved
        simp only [Bool.false_eq_true, if_false]
        rw [ih (showError w1 e) (fun d hd => hfail d (List.mem_cons_of_mem _ hd))]
        rw [hatt.1]
        rfl

/-- C25: one call of `createTx` adds at most one transaction to the wallet
store, whatever the dialog results and the failures.  Once an insertion has
succeeded (`saved` is true) the loop ends: the rest of the dialog script is
left unread and has no influence on the result, also when sending fails.  An
attempt that fails before the insertion leaves the window as it was, and
when every accepted attempt fails before the insertion the store is
unchanged. -/
theorem createTx_at_most_one_insertion (w : MainWindow) (selected : Option String)
    (dialog rest other : List (DialogResult CreateTxAttempt)) (a : CreateTxAttempt) :
    (createTx w selected dialog).accountModel.txs.length ≤ w.accountModel.txs.length + 1
    ∧ ((createTxAttempt w a).2.1 = true →
        createTxLoopUnread w (.accepted a :: rest) = rest
        ∧ createTxLoop w (.accepted a :: rest) = createTxLoop w (.accepted a :: other))
    ∧ ((createTxAttempt w a).2.1 = false → (createTxAttempt w a).1 = w)
    ∧ ((∀ d ∈ dialog, ∀ b, d = DialogResult.accepted b →
          ∀ v, (createTxAttempt v b).2.1 = false) →
        (createTx w selected dialog).accountModel = w.accountModel) := by
  refine ⟨?_, ?_, fun h => ((createTxAttempt_store w a).2 h).1, ?_⟩
  · cases selected with
    | none => exact Nat.le_succ _
    | some name => exact createTxLoop_store_length dialog w
  · intro hsaved
    unfold createTxLoopUnread createTxLoop
    rcases hres : createTxAttempt w a with ⟨w1, saved, thrown⟩
    rw [hres] at hsaved
    simp only at hsaved
    subst hsaved
    cases thrown with
    | none => exact ⟨rfl, rfl⟩
    | some e => exact ⟨by simp, by simp⟩
  · intro hfail
    cases selected with
    | none => rfl
    | some name => exact createTxLoop_no_insertion dialog w hfail

/-! ### Writers of the height pair -/

end CoinVault
